import Mathlib

/-!
Shallow embedding of the gainbridge backend ledger core
(controllers/adminController.js, controllers/userController.js,
utils/calcProfit.js).

Modelling conventions:
* JS `Number` arithmetic is modelled as exact rational arithmetic (`ℚ`).
* Timestamps are minutes since the Unix epoch (`ℕ`), UTC; one calendar day
  is `1440` minutes and the 60-calendar-day cap is `86400` minutes.
  The JS code zeroes seconds/milliseconds before counting minutes, so the
  minute granularity is exact.  The Unix epoch (1970-01-01) was a Thursday,
  so `getDay()` of a timestamp `t` is `(t / 1440 + 4) % 7` (0 = Sunday).
* `Number(x.toFixed(2))` is modelled by `round2` (round to two decimals,
  ties toward plus infinity, which is what `toFixed` does on exact values).
-/

set_option linter.unusedVariables false
set_option linter.unreachableTactic false
set_option linter.unusedTactic false

/-! ### Business-time arithmetic (utils/calcProfit.js) -/

/-! ### Rate tiers (utils/calcProfit.js rateForAmount) -/

/-- Rounding to 2 decimals: the JS idiom `Number(x.toFixed(2))`. -/
def round2 (q : ℚ) : ℚ := (⌊q * 100 + 1 / 2⌋ : ℚ) / 100

/-- A rational that is an exact two-decimal monetary value (decidably:
multiplying by 100 clears the denominator). -/
def money2 (q : ℚ) : Prop := (q * 100).den = 1

instance (q : ℚ) : Decidable (money2 q) := instDecidableEqNat _ _

/-- JS `Date.prototype.getDay` of a timestamp in minutes (UTC): 0 = Sunday,
6 = Saturday; the Unix epoch was a Thursday (= 4). -/
def dayOfWeek (t : ℕ) : ℕ := (t / 1440 + 4) % 7

/-- The weekday test `day !== 0 && day !== 6` from `businessMinutesBetween`. -/
def isWeekday (t : ℕ) : Bool := dayOfWeek t != 0 && dayOfWeek t != 6

/-- Fuel-indexed day-by-day loop of `businessMinutesBetween`
(utils/calcProfit.js): for each calendar-day segment of `[s, e)` whose day is
Monday-Friday, add the clipped segment length in minutes, then advance to the
start of the next day.  The fuel only bounds the loop (each iteration strictly
advances `s`), making the definition structurally recursive and executable. -/
def bmbAux : ℕ → ℕ → ℕ → ℕ
  | 0, _, _ => 0
  | fuel + 1, s, e =>
    if s < e then
      (if isWeekday s then min ((s / 1440 + 1) * 1440) e - s else 0) +
        bmbAux fuel ((s / 1440 + 1) * 1440) e
    else 0

/-- Embedding of `businessMinutesBetween(startDate, endDate)`: business minutes
(Mon-Fri) in `[s, e)`, start inclusive, end exclusive.  `e - s` iterations of
fuel always suffice since each loop step advances by at least one minute. -/
def businessMinutesBetween (s e : ℕ) : ℕ := bmbAux (e - s) s e

/-- Closed form used in proofs: the number of minutes in `[s, e)` that fall on
a weekday. -/
def weekdayMinutes (s e : ℕ) : ℕ :=
  ((Finset.Ico s e).filter (fun t => isWeekday t = true)).card

/-- The static `mapping` table of `rateForAmount`: (amount threshold, daily
rate percent), already in ascending order of threshold. -/
def tierTable : List (ℚ × ℚ) :=
  [(20, 5), (50, 5), (100, 6), (200, 6), (500, 6),
   (1000, 7), (2000, 7), (5000, 7), (10000, 8), (20000, 8)]

/-- Embedding of `rateForAmount(amount)`: exact threshold match first;
otherwise scan the (ascending) table from the top down and return the rate of
the first tier whose threshold is at most `amount`; else the fallback 5. -/
def rateForAmount (amount : ℚ) : ℚ :=
  match tierTable.find? (fun m => m.1 == amount) with
  | some m => m.2
  | none =>
    match tierTable.reverse.find? (fun m => decide (m.1 ≤ amount)) with
    | some m => m.2
    | none => 5

/-- Modelled from the spec wording of RateResolver: "exact match wins;
otherwise the highest tier whose threshold ≤ amount; amounts below the lowest
tier get the lowest tier's rate".  Since the table is ascending, the highest
qualifying tier is the last element of the filtered table, and the lowest
tier's rate is the head's rate. -/
def rateResolverSpec (amount : ℚ) : ℚ :=
  match tierTable.find? (fun m => m.1 == amount) with
  | some m => m.2
  | none =>
    match (tierTable.filter (fun m => decide (m.1 ≤ amount))).getLast? with
    | some m => m.2
    | none =>
      match tierTable.head? with
      | some m => m.2
      | none => 5

/-! ### Data model (models/User.js, models/Transaction.js) -/

inductive DepStatus
  | active
  | completed
deriving DecidableEq

/-- A deposit subdocument on a User, as created by `approveDeposit`. -/
structure Deposit where
  amount : ℚ
  ratePercent : Option ℚ
  days : ℕ
  startDate : Option ℕ
  approvedAt : Option ℕ
  endDate : Option ℕ
  status : DepStatus
deriving DecidableEq

/-- Canonical start of a deposit: `deposit.startDate || deposit.approvedAt`. -/
def depStart (dep : Deposit) : Option ℕ :=
  match dep.startDate with
  | some s => some s
  | none => dep.approvedAt

/-- Rate used by `profitForDeposit`: the recorded `ratePercent` when it is a
number, otherwise `rateForAmount(deposit.amount)`. -/
def effectiveRate (dep : Deposit) : ℚ :=
  match dep.ratePercent with
  | some r => r
  | none => rateForAmount dep.amount

/-- Embedding of `profitForDeposit(deposit, asOf)` (utils/calcProfit.js):
accrual runs over `[start, min(asOf, endDate, start + 60 days))`, counts
business minutes only, earns simple interest `amount * rate/100` per full
day pro-rated by minute, and rounds the result to 2 decimals. -/
def profitForDeposit (dep : Deposit) (asOf : ℕ) : ℚ :=
  match depStart dep with
  | none => 0
  | some start =>
    let cap := start + 86400
    let upto1 :=
      match dep.endDate with
      | some e => if e < asOf then e else asOf
      | none => asOf
    let upto := if cap < upto1 then cap else upto1
    if upto ≤ start then 0
    else
      let minutes := businessMinutesBetween start upto
      if minutes = 0 then 0
      else round2 (dep.amount * (effectiveRate dep / 100) * ((minutes : ℚ) / 1440))

/-- The accrual upper bound `min(asOf, endDate, start + 60 days)` as a plain
function, for stating lemmas about `profitForDeposit`. -/
def accrualUpto (dep : Deposit) (start asOf : ℕ) : ℕ :=
  min (start + 86400)
    (match dep.endDate with
     | some e => min e asOf
     | none => asOf)

inductive TxType
  | deposit
  | withdraw
deriving DecidableEq

inductive TxStatus
  | pending
  | approved
  | rejected
deriving DecidableEq

/-- The fields of a Transaction document (models/Transaction.js) the ledger
core reads or writes.  `details` subfields are flattened: `snapshotNet` is
`details.snapshot.netProfit` (captured at withdrawal creation),
`approvedAmount` is `details.approvedAmount`, `breakdownFromNet` is
`details.approvedBreakdown.fromNet`, `planRate` is the numeric
`details.plan.ratePercent ?? details.plan.rate` when the plan carries one,
`detailsRate` is the numeric `details.ratePercent`, and `planDays` /
`detailsDays` are the truthy `details.plan.days` / `details.days`.
String-valued fields (remarks, method ids, emails) are not modelled. -/
structure Txn where
  type : TxType
  status : TxStatus
  amount : ℚ
  snapshotNet : Option ℚ
  approvedAmount : Option ℚ
  breakdownFromNet : Option ℚ
  planRate : Option ℚ
  detailsRate : Option ℚ
  planDays : Option ℕ
  detailsDays : Option ℕ
deriving DecidableEq

/-- A referral snapshot entry (`referrals[]` on models/User.js): referred
user id with capital and commission snapshots. -/
structure RefEntry where
  user : ℕ
  capital : ℚ
  commissionEarned : ℚ
deriving DecidableEq

/-- The ledger fields of a User document (models/User.js). -/
structure User where
  id : ℕ
  capital : ℚ
  netProfit : ℚ
  referralEarnings : ℚ
  deposits : List Deposit
  referrals : List RefEntry
deriving DecidableEq

/-! ### Withdrawal settlement (controllers/adminController.js) -/

/-- Return value of `deductFromUser`. -/
structure DeductResult where
  netAfter : ℚ
  refAfter : ℚ
  shortfall : ℚ
deriving DecidableEq

/-- Embedding of `deductFromUser(user, amount)`: cascading deduction from
`netProfit` first, then `referralEarnings`; the persisted balances are
rounded to 2 decimals and the unsatisfied remainder is returned as
`shortfall`. -/
def deductFromUser (net ref amount : ℚ) : DeductResult :=
  let fromNet := min net amount
  let net1 := net - fromNet
  let remaining1 := amount - fromNet
  let fromRef := min ref remaining1
  let ref1 := ref - fromRef
  let remaining2 := remaining1 - fromRef
  { netAfter := round2 net1, refAfter := round2 ref1, shortfall := round2 remaining2 }

/-- The error taxonomy of the settlement handlers: 404 not-found, 400
"Request already processed", 400 amount validation. -/
inductive Err
  | notFound
  | invalidState
  | validation
deriving DecidableEq

/-- Result of a successful withdrawal approval: updated user and transaction
plus the audit metadata (the `result` of `deductFromUser`). -/
structure WOut where
  user : User
  tx : Txn
  audit : DeductResult
deriving DecidableEq

/-- Embedding of `approveWithdraw`: not-found when the transaction is missing
or not a withdrawal; invalid-state ("Request already processed") when not
pending; validation when the approved amount (defaulting to the requested
amount) exceeds `netProfit + referralEarnings`; otherwise the cascading
deduction is applied and the transaction is marked approved with the amount
recorded in `details.approvedAmount`.  The surrounding mongoose session makes
the update atomic, so an error leaves every record unchanged. -/
def approveWithdraw (req : Option ℚ) (tx : Txn) (user : User) : Except Err WOut :=
  if tx.type ≠ TxType.withdraw then Except.error Err.notFound
  else if tx.status ≠ TxStatus.pending then Except.error Err.invalidState
  else
    let available := user.netProfit + user.referralEarnings
    let approveAmt := req.getD tx.amount
    if available < approveAmt then Except.error Err.validation
    else
      let result := deductFromUser user.netProfit user.referralEarnings approveAmt
      Except.ok
        { user := { user with netProfit := result.netAfter,
                              referralEarnings := result.refAfter }
          tx := { tx with status := TxStatus.approved,
                          approvedAmount := some approveAmt }
          audit := result }

/-- Embedding of `rejectWithdraw`: status/remark update only, no balance
mutation. -/
def rejectWithdraw (tx : Txn) : Except Err Txn :=
  if tx.type ≠ TxType.withdraw then Except.error Err.notFound
  else if tx.status ≠ TxStatus.pending then Except.error Err.invalidState
  else Except.ok { tx with status := TxStatus.rejected }

/-! ### Deposit approval settlement (controllers/adminController.js) -/

/-- In-place update of the first snapshot entry matching the referred user,
as the `referrer.referrals.find(...)` mutation in `approveDeposit` does. -/
def updateFirstEntry (uid : ℕ) (amt com : ℚ) : List RefEntry → List RefEntry
  | [] => []
  | r :: rs =>
    if r.user = uid then
      { r with capital := r.capital + amt,
               commissionEarned := r.commissionEarned + com } :: rs
    else r :: updateFirstEntry uid amt com rs

/-- Referral-crediting block of `approveDeposit`: commission is
`round2(amount * referralRate)`, added to the referrer's `referralEarnings`
(the sum itself is not re-rounded), and the snapshot entry for the referred
user is merged when present, appended otherwise. -/
def creditReferral (referrer : User) (referredId : ℕ) (amt referralRate : ℚ) : User :=
  let commission := round2 (amt * referralRate)
  let referrals :=
    if referrer.referrals.any (fun r => r.user == referredId) then
      updateFirstEntry referredId amt commission referrer.referrals
    else
      referrer.referrals ++ [{ user := referredId, capital := amt,
                               commissionEarned := commission }]
  { referrer with referralEarnings := referrer.referralEarnings + commission,
                  referrals := referrals }

/-- Result of a successful deposit approval: updated user and transaction,
and the updated referrer when one was found. -/
structure DOut where
  user : User
  tx : Txn
  referrer : Option User
deriving DecidableEq

/-- Embedding of `approveDeposit`: not-found / invalid-state guards, then:
resolve the rate (plan rate, else transaction-level rate, else
`rateForAmount`), resolve the window (plan days, else transaction-level days,
else 60), push a new active Deposit starting at the approval instant with
`endDate = startDate + days` calendar days, add the approved amount to
`capital` (rounded to 2 decimals), mark the transaction approved, and credit
the referrer when one exists.  `referralRate` is the configured
`REFERRAL_RATE` (default 0.05); `now` is the approval instant. -/
def approveDeposit (req : Option ℚ) (now : ℕ) (tx : Txn) (user : User)
    (referrer : Option User) (referralRate : ℚ) : Except Err DOut :=
  if tx.type ≠ TxType.deposit then Except.error Err.notFound
  else if tx.status ≠ TxStatus.pending then Except.error Err.invalidState
  else
    let amt := req.getD tx.amount
    let ratePercent := (tx.planRate.orElse (fun _ => tx.detailsRate)).getD (rateForAmount amt)
    let days := (tx.planDays.orElse (fun _ => tx.detailsDays)).getD 60
    let dep : Deposit :=
      { amount := amt, ratePercent := some ratePercent, days := days,
        startDate := some now, approvedAt := some now,
        endDate := some (now + days * 1440), status := DepStatus.active }
    let user1 :=
      { user with deposits := user.deposits ++ [dep],
                  capital := round2 (user.capital + amt) }
    let tx1 := { tx with status := TxStatus.approved, approvedAmount := some amt }
    Except.ok
      { user := user1, tx := tx1,
        referrer := referrer.map (fun r => creditReferral r user.id amt referralRate) }

/-- Embedding of `rejectDeposit`: status/remark update only. -/
def rejectDeposit (tx : Txn) : Except Err Txn :=
  if tx.type ≠ TxType.deposit then Except.error Err.notFound
  else if tx.status ≠ TxStatus.pending then Except.error Err.invalidState
  else Except.ok { tx with status := TxStatus.rejected }

/-- Post-state of an `approveWithdraw` request: on error the mongoose
session aborts before any save, so the stored records are unchanged. -/
def runApproveWithdraw (req : Option ℚ) (tx : Txn) (user : User) : Txn × User :=
  match approveWithdraw req tx user with
  | Except.ok o => (o.tx, o.user)
  | Except.error _ => (tx, user)

/-- Post-state of a `rejectWithdraw` request. -/
def runRejectWithdraw (tx : Txn) : Txn :=
  match rejectWithdraw tx with
  | Except.ok t => t
  | Except.error _ => tx

/-- Post-state of an `approveDeposit` request: errors are thrown before any
record is saved. -/
def runApproveDeposit (req : Option ℚ) (now : ℕ) (tx : Txn) (user : User)
    (referrer : Option User) (referralRate : ℚ) : Txn × User × Option User :=
  match approveDeposit req now tx user referrer referralRate with
  | Except.ok o => (o.tx, o.user, o.referrer)
  | Except.error _ => (tx, user, referrer)

/-- Post-state of a `rejectDeposit` request. -/
def runRejectDeposit (tx : Txn) : Txn :=
  match rejectDeposit tx with
  | Except.ok t => t
  | Except.error _ => tx

/-! ### Net-profit recomputation and maturity finalization
(controllers/userController.js) -/

/-- Per-transaction amount taken from net profit, as inferred by
`computeNetProfit`: the explicit recorded breakdown when present, otherwise
`min(snapshot.netProfit, approvedAmount)` with
`approvedAmount = details.approvedAmount ?? tx.amount`. -/
def withdrawnFromNetOf (tx : Txn) : ℚ :=
  let approvedAmount := tx.approvedAmount.getD tx.amount
  match tx.breakdownFromNet with
  | some f => f
  | none => min (tx.snapshotNet.getD 0) approvedAmount

/-- Embedding of `computeNetProfit(user)`: gross accrual over active deposits
minus the amounts previously taken from net profit by approved withdrawals,
clamped at zero and rounded to 2 decimals.  `txs` is the stored transaction
collection for this user; `now` is the evaluation instant. -/
def computeNetProfit (user : User) (txs : List Txn) (now : ℕ) : ℚ :=
  let totalProfit :=
    (user.deposits.filter (fun d => d.status == DepStatus.active)).foldl
      (fun acc d => acc + profitForDeposit d now) 0
  let withdrawnFromNet :=
    (txs.filter (fun t => t.type == TxType.withdraw && t.status == TxStatus.approved)).foldl
      (fun acc t => acc + withdrawnFromNetOf t) 0
  let availableNet := totalProfit - withdrawnFromNet
  let clamped := if availableNet < 0 then 0 else availableNet
  round2 clamped

/-- Claim-side formula: the accrual of every active deposit, summed. -/
def grossAccrued (user : User) (now : ℕ) : ℚ :=
  ((user.deposits.filter (fun d => d.status == DepStatus.active)).map
    (fun d => profitForDeposit d now)).sum

/-- Claim-side formula: the from-profit amounts of every approved withdrawal,
summed. -/
def totalWithdrawnFromProfit (txs : List Txn) : ℚ :=
  ((txs.filter (fun t => t.type == TxType.withdraw && t.status == TxStatus.approved)).map
    withdrawnFromNetOf).sum

/-- Whether an active deposit has passed the hard 60-calendar-day maturity
window at time `now` (maturity loop of `getOverview`). -/
def depMatured (now : ℕ) (dep : Deposit) : Bool :=
  dep.status == DepStatus.active &&
    match depStart dep with
    | some s => decide (s + 86400 ≤ now)
    | none => false

/-- Deposit-record part of the maturity loop of `getOverview`: a matured
active deposit becomes `completed`, its `endDate` is set to the maturity
instant `start + 60` calendar days, and a missing `startDate` is backfilled
from `approvedAt`. -/
def finDep (now : ℕ) (dep : Deposit) : Deposit :=
  if depMatured now dep then
    match depStart dep with
    | some s =>
      { dep with status := DepStatus.completed, endDate := some (s + 86400),
                 startDate := some s }
    | none => dep
  else dep

/-- Capital part of the maturity loop: each matured deposit's amount is
subtracted from the running `capital`, clamped at zero. -/
def finCap (now : ℕ) (cap : ℚ) (dep : Deposit) : ℚ :=
  if depMatured now dep then
    let next := cap - dep.amount
    if next < 0 then 0 else next
  else cap

/-- Embedding of the maturity-finalization pass of `getOverview`.  The JS
loop updates each deposit and the running capital in one pass; the
per-deposit update does not depend on the running capital, so the pass is
expressed as a map on deposits and a fold for the capital. -/
def finalizeDeposits (now : ℕ) (user : User) : User :=
  { user with deposits := user.deposits.map (finDep now),
              capital := user.deposits.foldl (finCap now) user.capital }

/-- Balance-read path of `getOverview`: maturity finalization, then
net-profit recomputation persisted into `netProfit`. -/
def overviewUpdate (now : ℕ) (txs : List Txn) (user : User) : User :=
  let u1 := finalizeDeposits now user
  { u1 with netProfit := computeNetProfit u1 txs now }

/-! ### Invariants -/

/-- The Account monetary invariant on the three balance fields: non-negative
and exact 2-decimal values. -/
def GoodFields (u : User) : Prop :=
  0 ≤ u.capital ∧ money2 u.capital ∧
  0 ≤ u.netProfit ∧ money2 u.netProfit ∧
  0 ≤ u.referralEarnings ∧ money2 u.referralEarnings

instance (u : User) : Decidable (GoodFields u) := by
  unfold GoodFields
  infer_instance

/-- The full user invariant: good balance fields plus non-negative 2-decimal
deposit amounts. -/
def GoodUser (u : User) : Prop :=
  GoodFields u ∧ ∀ d ∈ u.deposits, 0 ≤ d.amount ∧ money2 d.amount

instance (u : User) : Decidable (GoodUser u) := by
  unfold GoodUser
  have : DecidablePred fun d : Deposit => 0 ≤ d.amount ∧ money2 d.amount := by
    intro d
    infer_instance
  infer_instance

/-- Invariant on the outcome of a withdrawal approval (errors mutate
nothing). -/
def GoodWOut : Except Err WOut → Prop
  | Except.ok o => GoodFields o.user
  | Except.error _ => True

/-- Invariant on an optional referrer. -/
def GoodOptUser : Option User → Prop
  | some r => GoodFields r
  | none => True

/-- Invariant on the outcome of a deposit approval (errors mutate nothing). -/
def GoodDOut : Except Err DOut → Prop
  | Except.ok o => GoodFields o.user ∧ GoodOptUser o.referrer
  | Except.error _ => True

/-! ### Supporting lemmas -/

theorem money2_iff {q : ℚ} : money2 q ↔ ∃ k : ℤ, q = (k : ℚ) / 100 := by
  constructor
  · intro h
    refine ⟨(q * 100).num, ?_⟩
    have h1 : ((q * 100).num : ℚ) = q * 100 := by
      rw [← Rat.den_eq_one_iff]
      exact h
    rw [h1]
    ring
  · rintro ⟨k, rfl⟩
    unfold money2
    have h1 : (k : ℚ) / 100 * 100 = (k : ℚ) := by
      field_simp
    rw [h1, Rat.den_intCast]

theorem money2_round2 (q : ℚ) : money2 (round2 q) :=
  money2_iff.mpr ⟨⌊q * 100 + 1 / 2⌋, rfl⟩

theorem round2_money2 {q : ℚ} (h : money2 q) : round2 q = q := by
  obtain ⟨k, rfl⟩ := money2_iff.mp h
  unfold round2
  have h1 : (k : ℚ) / 100 * 100 + 1 / 2 = (k : ℚ) + 1 / 2 := by ring
  rw [h1]
  have h2 : ⌊(k : ℚ) + 1 / 2⌋ = k := by
    rw [add_comm, Int.floor_add_int]
    norm_num
  rw [h2]

theorem round2_nonneg {q : ℚ} (h : 0 ≤ q) : 0 ≤ round2 q := by
  unfold round2
  have h1 : (0 : ℤ) ≤ ⌊q * 100 + 1 / 2⌋ := by
    rw [Int.le_floor]
    push_cast
    nlinarith
  have h2 : (0 : ℚ) ≤ ((⌊q * 100 + 1 / 2⌋ : ℤ) : ℚ) := by exact_mod_cast h1
  linarith

theorem round2_mono {q r : ℚ} (h : q ≤ r) : round2 q ≤ round2 r := by
  unfold round2
  have h1 : ⌊q * 100 + 1 / 2⌋ ≤ ⌊r * 100 + 1 / 2⌋ := by
    apply Int.floor_mono
    nlinarith
  have h2 : ((⌊q * 100 + 1 / 2⌋ : ℤ) : ℚ) ≤ ((⌊r * 100 + 1 / 2⌋ : ℤ) : ℚ) := by
    exact_mod_cast h1
  linarith

theorem money2_zero : money2 0 := money2_iff.mpr ⟨0, by norm_num⟩

theorem money2_add {a b : ℚ} (ha : money2 a) (hb : money2 b) : money2 (a + b) := by
  obtain ⟨k, rfl⟩ := money2_iff.mp ha
  obtain ⟨j, rfl⟩ := money2_iff.mp hb
  exact money2_iff.mpr ⟨k + j, by push_cast; ring⟩

theorem money2_sub {a b : ℚ} (ha : money2 a) (hb : money2 b) : money2 (a - b) := by
  obtain ⟨k, rfl⟩ := money2_iff.mp ha
  obtain ⟨j, rfl⟩ := money2_iff.mp hb
  exact money2_iff.mpr ⟨k - j, by push_cast; ring⟩

theorem money2_min {a b : ℚ} (ha : money2 a) (hb : money2 b) : money2 (min a b) := by
  rcases le_total a b with h | h
  · rwa [min_eq_left h]
  · rwa [min_eq_right h]

theorem money2_max {a b : ℚ} (ha : money2 a) (hb : money2 b) : money2 (max a b) := by
  rcases le_total a b with h | h
  · rwa [max_eq_right h]
  · rwa [max_eq_left h]

theorem weekdayMinutes_split {a b c : ℕ} (h1 : a ≤ b) (h2 : b ≤ c) :
    weekdayMinutes a c = weekdayMinutes a b + weekdayMinutes b c := by
  unfold weekdayMinutes
  rw [← Finset.Ico_union_Ico_eq_Ico h1 h2, Finset.filter_union,
      Finset.card_union_of_disjoint]
  exact Finset.disjoint_filter_filter (Finset.Ico_disjoint_Ico_consecutive a b c)

theorem weekdayMinutes_first_day {s m : ℕ} (hs : s ≤ m)
    (hm : m ≤ (s / 1440 + 1) * 1440) :
    weekdayMinutes s m = if isWeekday s then m - s else 0 := by
  unfold weekdayMinutes
  have hconst : ∀ t ∈ Finset.Ico s m, isWeekday t = isWeekday s := by
    intro t ht
    rw [Finset.mem_Ico] at ht
    have hdiv : t / 1440 = s / 1440 := by omega
    simp [isWeekday, dayOfWeek, hdiv]
  by_cases hw : isWeekday s
  · rw [if_pos hw, Finset.filter_true_of_mem, Nat.card_Ico]
    intro t ht
    rw [hconst t ht]
    exact hw
  · rw [if_neg hw, Finset.filter_false_of_mem, Finset.card_empty]
    intro t ht
    rw [hconst t ht]
    simpa using hw

theorem weekdayMinutes_of_ge {s e : ℕ} (h : e ≤ s) : weekdayMinutes s e = 0 := by
  unfold weekdayMinutes
  rw [Finset.Ico_eq_empty (by omega), Finset.filter_empty, Finset.card_empty]

theorem bmbAux_eq_weekdayMinutes :
    ∀ fuel s e : ℕ, e - s ≤ fuel → bmbAux fuel s e = weekdayMinutes s e := by
  intro fuel
  induction fuel with
  | zero =>
    intro s e h
    rw [bmbAux, weekdayMinutes_of_ge (by omega)]
  | succ fuel ih =>
    intro s e h
    by_cases hse : s < e
    · rw [bmbAux, if_pos hse]
      have hsnd : s < (s / 1440 + 1) * 1440 := by omega
      rw [ih ((s / 1440 + 1) * 1440) e (by omega)]
      have h1 : s ≤ min ((s / 1440 + 1) * 1440) e := by omega
      have h2 : min ((s / 1440 + 1) * 1440) e ≤ e := by omega
      rw [weekdayMinutes_split h1 h2,
          weekdayMinutes_first_day h1 (by omega)]
      rcases le_or_lt ((s / 1440 + 1) * 1440) e with hc | hc
      · rw [min_eq_left hc]
      · rw [min_eq_right (le_of_lt hc), weekdayMinutes_of_ge le_rfl,
            weekdayMinutes_of_ge (le_of_lt hc)]
    · rw [bmbAux, if_neg hse, weekdayMinutes_of_ge (by omega)]

theorem businessMinutesBetween_eq (s e : ℕ) :
    businessMinutesBetween s e = weekdayMinutes s e :=
  bmbAux_eq_weekdayMinutes (e - s) s e le_rfl

theorem businessMinutesBetween_mono {s e eh : ℕ} (h : e ≤ eh) :
    businessMinutesBetween s e ≤ businessMinutesBetween s eh := by
  rw [businessMinutesBetween_eq, businessMinutesBetween_eq]
  unfold weekdayMinutes
  exact Finset.card_le_card
    (Finset.filter_subset_filter _ (Finset.Ico_subset_Ico le_rfl h))

theorem businessMinutesBetween_zero_of_le {s e : ℕ} (h : e ≤ s) :
    businessMinutesBetween s e = 0 := by
  rw [businessMinutesBetween_eq, weekdayMinutes_of_ge h]

theorem find?_beq_none {l : List (ℚ × ℚ)} {a : ℚ} (h : ∀ x ∈ l, x.1 ≠ a) :
    l.find? (fun m => m.1 == a) = none := by
  rw [List.find?_eq_none]
  intro x hx
  simpa [beq_iff_eq] using h x hx

theorem rateForAmount_eq (a : ℚ) :
    rateForAmount a =
      if a < 20 then 5 else if a < 100 then 5 else if a < 1000 then 6
      else if a < 10000 then 7 else 8 := by
  rcases lt_or_le a 20 with h0 | h0
  · unfold rateForAmount
    rw [find?_beq_none (by intro x hx; fin_cases hx <;> simp <;> intro hh <;> linarith)]
    rw [show tierTable.reverse = [(20000,8),(10000,8),(5000,7),(2000,7),(1000,7),(500,6),(200,6),(100,6),(50,5),(20,5)] from rfl]
    simp only [List.find?]
    simp only [show ((20:ℚ) ≤ a) = False from eq_false (by linarith), show ((50:ℚ) ≤ a) = False from eq_false (by linarith), show ((100:ℚ) ≤ a) = False from eq_false (by linarith), show ((200:ℚ) ≤ a) = False from eq_false (by linarith), show ((500:ℚ) ≤ a) = False from eq_false (by linarith), show ((1000:ℚ) ≤ a) = False from eq_false (by linarith), show ((2000:ℚ) ≤ a) = False from eq_false (by linarith), show ((5000:ℚ) ≤ a) = False from eq_false (by linarith), show ((10000:ℚ) ≤ a) = False from eq_false (by linarith), show ((20000:ℚ) ≤ a) = False from eq_false (by linarith), decide_False, decide_True]
    split_ifs <;> first | rfl | linarith
  rcases lt_or_le a 50 with h1 | h1
  · by_cases heq : a = 20
    · subst heq; decide
    unfold rateForAmount
    rw [find?_beq_none (by intro x hx; fin_cases hx <;> simp <;> intro hh <;> first | exact heq hh.symm | linarith)]
    rw [show tierTable.reverse = [(20000,8),(10000,8),(5000,7),(2000,7),(1000,7),(500,6),(200,6),(100,6),(50,5),(20,5)] from rfl]
    simp only [List.find?]
    simp only [show ((20:ℚ) ≤ a) = True from eq_true (by linarith), show ((50:ℚ) ≤ a) = False from eq_false (by linarith), show ((100:ℚ) ≤ a) = False from eq_false (by linarith), show ((200:ℚ) ≤ a) = False from eq_false (by linarith), show ((500:ℚ) ≤ a) = False from eq_false (by linarith), show ((1000:ℚ) ≤ a) = False from eq_false (by linarith), show ((2000:ℚ) ≤ a) = False from eq_false (by linarith), show ((5000:ℚ) ≤ a) = False from eq_false (by linarith), show ((10000:ℚ) ≤ a) = False from eq_false (by linarith), show ((20000:ℚ) ≤ a) = False from eq_false (by linarith), decide_False, decide_True]
    split_ifs <;> first | rfl | linarith
  rcases lt_or_le a 100 with h2 | h2
  · by_cases heq : a = 50
    · subst heq; decide
    unfold rateForAmount
    rw [find?_beq_none (by intro x hx; fin_cases hx <;> simp <;> intro hh <;> first | exact heq hh.symm | linarith)]
    rw [show tierTable.reverse = [(20000,8),(10000,8),(5000,7),(2000,7),(1000,7),(500,6),(200,6),(100,6),(50,5),(20,5)] from rfl]
    simp only [List.find?]
    simp only [show ((20:ℚ) ≤ a) = True from eq_true (by linarith), show ((50:ℚ) ≤ a) = True from eq_true (by linarith), show ((100:ℚ) ≤ a) = False from eq_false (by linarith), show ((200:ℚ) ≤ a) = False from eq_false (by linarith), show ((500:ℚ) ≤ a) = False from eq_false (by linarith), show ((1000:ℚ) ≤ a) = False from eq_false (by linarith), show ((2000:ℚ) ≤ a) = False from eq_false (by linarith), show ((5000:ℚ) ≤ a) = False from eq_false (by linarith), show ((10000:ℚ) ≤ a) = False from eq_false (by linarith), show ((20000:ℚ) ≤ a) = False from eq_false (by linarith), decide_False, decide_True]
    split_ifs <;> first | rfl | linarith
  rcases lt_or_le a 200 with h3 | h3
  · by_cases heq : a = 100
    · subst heq; decide
    unfold rateForAmount
    rw [find?_beq_none (by intro x hx; fin_cases hx <;> simp <;> intro hh <;> first | exact heq hh.symm | linarith)]
    rw [show tierTable.reverse = [(20000,8),(10000,8),(5000,7),(2000,7),(1000,7),(500,6),(200,6),(100,6),(50,5),(20,5)] from rfl]
    simp only [List.find?]
    simp only [show ((20:ℚ) ≤ a) = True from eq_true (by linarith), show ((50:ℚ) ≤ a) = True from eq_true (by linarith), show ((100:ℚ) ≤ a) = True from eq_true (by linarith), show ((200:ℚ) ≤ a) = False from eq_false (by linarith), show ((500:ℚ) ≤ a) = False from eq_false (by linarith), show ((1000:ℚ) ≤ a) = False from eq_false (by linarith), show ((2000:ℚ) ≤ a) = False from eq_false (by linarith), show ((5000:ℚ) ≤ a) = False from eq_false (by linarith), show ((10000:ℚ) ≤ a) = False from eq_false (by linarith), show ((20000:ℚ) ≤ a) = False from eq_false (by linarith), decide_False, decide_True]
    split_ifs <;> first | rfl | linarith
  rcases lt_or_le a 500 with h4 | h4
  · by_cases heq : a = 200
    · subst heq; decide
    unfold rateForAmount
    rw [find?_beq_none (by intro x hx; fin_cases hx <;> simp <;> intro hh <;> first | exact heq hh.symm | linarith)]
    rw [show tierTable.reverse = [(20000,8),(10000,8),(5000,7),(2000,7),(1000,7),(500,6),(200,6),(100,6),(50,5),(20,5)] from rfl]
    simp only [List.find?]
    simp only [show ((20:ℚ) ≤ a) = True from eq_true (by linarith), show ((50:ℚ) ≤ a) = True from eq_true (by linarith), show ((100:ℚ) ≤ a) = True from eq_true (by linarith), show ((200:ℚ) ≤ a) = True from eq_true (by linarith), show ((500:ℚ) ≤ a) = False from eq_false (by linarith), show ((1000:ℚ) ≤ a) = False from eq_false (by linarith), show ((2000:ℚ) ≤ a) = False from eq_false (by linarith), show ((5000:ℚ) ≤ a) = False from eq_false (by linarith), show ((10000:ℚ) ≤ a) = False from eq_false (by linarith), show ((20000:ℚ) ≤ a) = False from eq_false (by linarith), decide_False, decide_True]
    split_ifs <;> first | rfl | linarith
  rcases lt_or_le a 1000 with h5 | h5
  · by_cases heq : a = 500
    · subst heq; decide
    unfold rateForAmount
    rw [find?_beq_none (by intro x hx; fin_cases hx <;> simp <;> intro hh <;> first | exact heq hh.symm | linarith)]
    rw [show tierTable.reverse = [(20000,8),(10000,8),(5000,7),(2000,7),(1000,7),(500,6),(200,6),(100,6),(50,5),(20,5)] from rfl]
    simp only [List.find?]
    simp only [show ((20:ℚ) ≤ a) = True from eq_true (by linarith), show ((50:ℚ) ≤ a) = True from eq_true (by linarith), show ((100:ℚ) ≤ a) = True from eq_true (by linarith), show ((200:ℚ) ≤ a) = True from eq_true (by linarith), show ((500:ℚ) ≤ a) = True from eq_true (by linarith), show ((1000:ℚ) ≤ a) = False from eq_false (by linarith), show ((2000:ℚ) ≤ a) = False from eq_false (by linarith), show ((5000:ℚ) ≤ a) = False from eq_false (by linarith), show ((10000:ℚ) ≤ a) = False from eq_false (by linarith), show ((20000:ℚ) ≤ a) = False from eq_false (by linarith), decide_False, decide_True]
    split_ifs <;> first | rfl | linarith
  rcases lt_or_le a 2000 with h6 | h6
  · by_cases heq : a = 1000
    · subst heq; decide
    unfold rateForAmount
    rw [find?_beq_none (by intro x hx; fin_cases hx <;> simp <;> intro hh <;> first | exact heq hh.symm | linarith)]
    rw [show tierTable.reverse = [(20000,8),(10000,8),(5000,7),(2000,7),(1000,7),(500,6),(200,6),(100,6),(50,5),(20,5)] from rfl]
    simp only [List.find?]
    simp only [show ((20:ℚ) ≤ a) = True from eq_true (by linarith), show ((50:ℚ) ≤ a) = True from eq_true (by linarith), show ((100:ℚ) ≤ a) = True from eq_true (by linarith), show ((200:ℚ) ≤ a) = True from eq_true (by linarith), show ((500:ℚ) ≤ a) = True from eq_true (by linarith), show ((1000:ℚ) ≤ a) = True from eq_true (by linarith), show ((2000:ℚ) ≤ a) = False from eq_false (by linarith), show ((5000:ℚ) ≤ a) = False from eq_false (by linarith), show ((10000:ℚ) ≤ a) = False from eq_false (by linarith), show ((20000:ℚ) ≤ a) = False from eq_false (by linarith), decide_False, decide_True]
    split_ifs <;> first | rfl | linarith
  rcases lt_or_le a 5000 with h7 | h7
  · by_cases heq : a = 2000
    · subst heq; decide
    unfold rateForAmount
    rw [find?_beq_none (by intro x hx; fin_cases hx <;> simp <;> intro hh <;> first | exact heq hh.symm | linarith)]
    rw [show tierTable.reverse = [(20000,8),(10000,8),(5000,7),(2000,7),(1000,7),(500,6),(200,6),(100,6),(50,5),(20,5)] from rfl]
    simp only [List.find?]
    simp only [show ((20:ℚ) ≤ a) = True from eq_true (by linarith), show ((50:ℚ) ≤ a) = True from eq_true (by linarith), show ((100:ℚ) ≤ a) = True from eq_true (by linarith), show ((200:ℚ) ≤ a) = True from eq_true (by linarith), show ((500:ℚ) ≤ a) = True from eq_true (by linarith), show ((1000:ℚ) ≤ a) = True from eq_true (by linarith), show ((2000:ℚ) ≤ a) = True from eq_true (by linarith), show ((5000:ℚ) ≤ a) = False from eq_false (by linarith), show ((10000:ℚ) ≤ a) = False from eq_false (by linarith), show ((20000:ℚ) ≤ a) = False from eq_false (by linarith), decide_False, decide_True]
    split_ifs <;> first | rfl | linarith
  rcases lt_or_le a 10000 with h8 | h8
  · by_cases heq : a = 5000
    · subst heq; decide
    unfold rateForAmount
    rw [find?_beq_none (by intro x hx; fin_cases hx <;> simp <;> intro hh <;> first | exact heq hh.symm | linarith)]
    rw [show tierTable.reverse = [(20000,8),(10000,8),(5000,7),(2000,7),(1000,7),(500,6),(200,6),(100,6),(50,5),(20,5)] from rfl]
    simp only [List.find?]
    simp only [show ((20:ℚ) ≤ a) = True from eq_true (by linarith), show ((50:ℚ) ≤ a) = True from eq_true (by linarith), show ((100:ℚ) ≤ a) = True from eq_true (by linarith), show ((200:ℚ) ≤ a) = True from eq_true (by linarith), show ((500:ℚ) ≤ a) = True from eq_true (by linarith), show ((1000:ℚ) ≤ a) = True from eq_true (by linarith), show ((2000:ℚ) ≤ a) = True from eq_true (by linarith), show ((5000:ℚ) ≤ a) = True from eq_true (by linarith), show ((10000:ℚ) ≤ a) = False from eq_false (by linarith), show ((20000:ℚ) ≤ a) = False from eq_false (by linarith), decide_False, decide_True]
    split_ifs <;> first | rfl | linarith
  rcases lt_or_le a 20000 with h9 | h9
  · by_cases heq : a = 10000
    · subst heq; decide
    unfold rateForAmount
    rw [find?_beq_none (by intro x hx; fin_cases hx <;> simp <;> intro hh <;> first | exact heq hh.symm | linarith)]
    rw [show tierTable.reverse = [(20000,8),(10000,8),(5000,7),(2000,7),(1000,7),(500,6),(200,6),(100,6),(50,5),(20,5)] from rfl]
    simp only [List.find?]
    simp only [show ((20:ℚ) ≤ a) = True from eq_true (by linarith), show ((50:ℚ) ≤ a) = True from eq_true (by linarith), show ((100:ℚ) ≤ a) = True from eq_true (by linarith), show ((200:ℚ) ≤ a) = True from eq_true (by linarith), show ((500:ℚ) ≤ a) = True from eq_true (by linarith), show ((1000:ℚ) ≤ a) = True from eq_true (by linarith), show ((2000:ℚ) ≤ a) = True from eq_true (by linarith), show ((5000:ℚ) ≤ a) = True from eq_true (by linarith), show ((10000:ℚ) ≤ a) = True from eq_true (by linarith), show ((20000:ℚ) ≤ a) = False from eq_false (by linarith), decide_False, decide_True]
    split_ifs <;> first | rfl | linarith
  by_cases heq : a = 20000
  · subst heq; decide
  unfold rateForAmount
  rw [find?_beq_none (by intro x hx; fin_cases hx <;> simp <;> intro hh <;> first | exact heq hh.symm | linarith)]
  rw [show tierTable.reverse = [(20000,8),(10000,8),(5000,7),(2000,7),(1000,7),(500,6),(200,6),(100,6),(50,5),(20,5)] from rfl]
  simp only [List.find?]
  simp only [show ((20:ℚ) ≤ a) = True from eq_true (by linarith), show ((50:ℚ) ≤ a) = True from eq_true (by linarith), show ((100:ℚ) ≤ a) = True from eq_true (by linarith), show ((200:ℚ) ≤ a) = True from eq_true (by linarith), show ((500:ℚ) ≤ a) = True from eq_true (by linarith), show ((1000:ℚ) ≤ a) = True from eq_true (by linarith), show ((2000:ℚ) ≤ a) = True from eq_true (by linarith), show ((5000:ℚ) ≤ a) = True from eq_true (by linarith), show ((10000:ℚ) ≤ a) = True from eq_true (by linarith), show ((20000:ℚ) ≤ a) = True from eq_true (by linarith), decide_False, decide_True]
  split_ifs <;> first | rfl | linarith

theorem rateResolverSpec_eq (a : ℚ) :
    rateResolverSpec a =
      if a < 20 then 5 else if a < 100 then 5 else if a < 1000 then 6
      else if a < 10000 then 7 else 8 := by
  rcases lt_or_le a 20 with h0 | h0
  · unfold rateResolverSpec
    rw [find?_beq_none (by intro x hx; fin_cases hx <;> simp <;> intro hh <;> linarith)]
    have hfilt : tierTable.filter (fun m => decide (m.1 ≤ a)) = ([] : List (ℚ × ℚ)) := by
      simp only [tierTable, List.filter, show ((20:ℚ) ≤ a) = False from eq_false (by linarith), show ((50:ℚ) ≤ a) = False from eq_false (by linarith), show ((100:ℚ) ≤ a) = False from eq_false (by linarith), show ((200:ℚ) ≤ a) = False from eq_false (by linarith), show ((500:ℚ) ≤ a) = False from eq_false (by linarith), show ((1000:ℚ) ≤ a) = False from eq_false (by linarith), show ((2000:ℚ) ≤ a) = False from eq_false (by linarith), show ((5000:ℚ) ≤ a) = False from eq_false (by linarith), show ((10000:ℚ) ≤ a) = False from eq_false (by linarith), show ((20000:ℚ) ≤ a) = False from eq_false (by linarith), decide_False, decide_True]
    rw [hfilt]
    split_ifs <;> first | rfl | linarith
  rcases lt_or_le a 50 with h1 | h1
  · by_cases heq : a = 20
    · subst heq; decide
    unfold rateResolverSpec
    rw [find?_beq_none (by intro x hx; fin_cases hx <;> simp <;> intro hh <;> first | exact heq hh.symm | linarith)]
    have hfilt : tierTable.filter (fun m => decide (m.1 ≤ a)) = [((20:ℚ),(5:ℚ))] := by
      simp only [tierTable, List.filter, show ((20:ℚ) ≤ a) = True from eq_true (by linarith), show ((50:ℚ) ≤ a) = False from eq_false (by linarith), show ((100:ℚ) ≤ a) = False from eq_false (by linarith), show ((200:ℚ) ≤ a) = False from eq_false (by linarith), show ((500:ℚ) ≤ a) = False from eq_false (by linarith), show ((1000:ℚ) ≤ a) = False from eq_false (by linarith), show ((2000:ℚ) ≤ a) = False from eq_false (by linarith), show ((5000:ℚ) ≤ a) = False from eq_false (by linarith), show ((10000:ℚ) ≤ a) = False from eq_false (by linarith), show ((20000:ℚ) ≤ a) = False from eq_false (by linarith), decide_False, decide_True]
    rw [hfilt]
    split_ifs <;> first | rfl | linarith
  rcases lt_or_le a 100 with h2 | h2
  · by_cases heq : a = 50
    · subst heq; decide
    unfold rateResolverSpec
    rw [find?_beq_none (by intro x hx; fin_cases hx <;> simp <;> intro hh <;> first | exact heq hh.symm | linarith)]
    have hfilt : tierTable.filter (fun m => decide (m.1 ≤ a)) = [((20:ℚ),(5:ℚ)), ((50:ℚ),(5:ℚ))] := by
      simp only [tierTable, List.filter, show ((20:ℚ) ≤ a) = True from eq_true (by linarith), show ((50:ℚ) ≤ a) = True from eq_true (by linarith), show ((100:ℚ) ≤ a) = False from eq_false (by linarith), show ((200:ℚ) ≤ a) = False from eq_false (by linarith), show ((500:ℚ) ≤ a) = False from eq_false (by linarith), show ((1000:ℚ) ≤ a) = False from eq_false (by linarith), show ((2000:ℚ) ≤ a) = False from eq_false (by linarith), show ((5000:ℚ) ≤ a) = False from eq_false (by linarith), show ((10000:ℚ) ≤ a) = False from eq_false (by linarith), show ((20000:ℚ) ≤ a) = False from eq_false (by linarith), decide_False, decide_True]
    rw [hfilt]
    split_ifs <;> first | rfl | linarith
  rcases lt_or_le a 200 with h3 | h3
  · by_cases heq : a = 100
    · subst heq; decide
    unfold rateResolverSpec
    rw [find?_beq_none (by intro x hx; fin_cases hx <;> simp <;> intro hh <;> first | exact heq hh.symm | linarith)]
    have hfilt : tierTable.filter (fun m => decide (m.1 ≤ a)) = [((20:ℚ),(5:ℚ)), ((50:ℚ),(5:ℚ)), ((100:ℚ),(6:ℚ))] := by
      simp only [tierTable, List.filter, show ((20:ℚ) ≤ a) = True from eq_true (by linarith), show ((50:ℚ) ≤ a) = True from eq_true (by linarith), show ((100:ℚ) ≤ a) = True from eq_true (by linarith), show ((200:ℚ) ≤ a) = False from eq_false (by linarith), show ((500:ℚ) ≤ a) = False from eq_false (by linarith), show ((1000:ℚ) ≤ a) = False from eq_false (by linarith), show ((2000:ℚ) ≤ a) = False from eq_false (by linarith), show ((5000:ℚ) ≤ a) = False from eq_false (by linarith), show ((10000:ℚ) ≤ a) = False from eq_false (by linarith), show ((20000:ℚ) ≤ a) = False from eq_false (by linarith), decide_False, decide_True]
    rw [hfilt]
    split_ifs <;> first | rfl | linarith
  rcases lt_or_le a 500 with h4 | h4
  · by_cases heq : a = 200
    · subst heq; decide
    unfold rateResolverSpec
    rw [find?_beq_none (by intro x hx; fin_cases hx <;> simp <;> intro hh <;> first | exact heq hh.symm | linarith)]
    have hfilt : tierTable.filter (fun m => decide (m.1 ≤ a)) = [((20:ℚ),(5:ℚ)), ((50:ℚ),(5:ℚ)), ((100:ℚ),(6:ℚ)), ((200:ℚ),(6:ℚ))] := by
      simp only [tierTable, List.filter, show ((20:ℚ) ≤ a) = True from eq_true (by linarith), show ((50:ℚ) ≤ a) = True from eq_true (by linarith), show ((100:ℚ) ≤ a) = True from eq_true (by linarith), show ((200:ℚ) ≤ a) = True from eq_true (by linarith), show ((500:ℚ) ≤ a) = False from eq_false (by linarith), show ((1000:ℚ) ≤ a) = False from eq_false (by linarith), show ((2000:ℚ) ≤ a) = False from eq_false (by linarith), show ((5000:ℚ) ≤ a) = False from eq_false (by linarith), show ((10000:ℚ) ≤ a) = False from eq_false (by linarith), show ((20000:ℚ) ≤ a) = False from eq_false (by linarith), decide_False, decide_True]
    rw [hfilt]
    split_ifs <;> first | rfl | linarith
  rcases lt_or_le a 1000 with h5 | h5
  · by_cases heq : a = 500
    · subst heq; decide
    unfold rateResolverSpec
    rw [find?_beq_none (by intro x hx; fin_cases hx <;> simp <;> intro hh <;> first | exact heq hh.symm | linarith)]
    have hfilt : tierTable.filter (fun m => decide (m.1 ≤ a)) = [((20:ℚ),(5:ℚ)), ((50:ℚ),(5:ℚ)), ((100:ℚ),(6:ℚ)), ((200:ℚ),(6:ℚ)), ((500:ℚ),(6:ℚ))] := by
      simp only [tierTable, List.filter, show ((20:ℚ) ≤ a) = True from eq_true (by linarith), show ((50:ℚ) ≤ a) = True from eq_true (by linarith), show ((100:ℚ) ≤ a) = True from eq_true (by linarith), show ((200:ℚ) ≤ a) = True from eq_true (by linarith), show ((500:ℚ) ≤ a) = True from eq_true (by linarith), show ((1000:ℚ) ≤ a) = False from eq_false (by linarith), show ((2000:ℚ) ≤ a) = False from eq_false (by linarith), show ((5000:ℚ) ≤ a) = False from eq_false (by linarith), show ((10000:ℚ) ≤ a) = False from eq_false (by linarith), show ((20000:ℚ) ≤ a) = False from eq_false (by linarith), decide_False, decide_True]
    rw [hfilt]
    split_ifs <;> first | rfl | linarith
  rcases lt_or_le a 2000 with h6 | h6
  · by_cases heq : a = 1000
    · subst heq; decide
    unfold rateResolverSpec
    rw [find?_beq_none (by intro x hx; fin_cases hx <;> simp <;> intro hh <;> first | exact heq hh.symm | linarith)]
    have hfilt : tierTable.filter (fun m => decide (m.1 ≤ a)) = [((20:ℚ),(5:ℚ)), ((50:ℚ),(5:ℚ)), ((100:ℚ),(6:ℚ)), ((200:ℚ),(6:ℚ)), ((500:ℚ),(6:ℚ)), ((1000:ℚ),(7:ℚ))] := by
      simp only [tierTable, List.filter, show ((20:ℚ) ≤ a) = True from eq_true (by linarith), show ((50:ℚ) ≤ a) = True from eq_true (by linarith), show ((100:ℚ) ≤ a) = True from eq_true (by linarith), show ((200:ℚ) ≤ a) = True from eq_true (by linarith), show ((500:ℚ) ≤ a) = True from eq_true (by linarith), show ((1000:ℚ) ≤ a) = True from eq_true (by linarith), show ((2000:ℚ) ≤ a) = False from eq_false (by linarith), show ((5000:ℚ) ≤ a) = False from eq_false (by linarith), show ((10000:ℚ) ≤ a) = False from eq_false (by linarith), show ((20000:ℚ) ≤ a) = False from eq_false (by linarith), decide_False, decide_True]
    rw [hfilt]
    split_ifs <;> first | rfl | linarith
  rcases lt_or_le a 5000 with h7 | h7
  · by_cases heq : a = 2000
    · subst heq; decide
    unfold rateResolverSpec
    rw [find?_beq_none (by intro x hx; fin_cases hx <;> simp <;> intro hh <;> first | exact heq hh.symm | linarith)]
    have hfilt : tierTable.filter (fun m => decide (m.1 ≤ a)) = [((20:ℚ),(5:ℚ)), ((50:ℚ),(5:ℚ)), ((100:ℚ),(6:ℚ)), ((200:ℚ),(6:ℚ)), ((500:ℚ),(6:ℚ)), ((1000:ℚ),(7:ℚ)), ((2000:ℚ),(7:ℚ))] := by
      simp only [tierTable, List.filter, show ((20:ℚ) ≤ a) = True from eq_true (by linarith), show ((50:ℚ) ≤ a) = True from eq_true (by linarith), show ((100:ℚ) ≤ a) = True from eq_true (by linarith), show ((200:ℚ) ≤ a) = True from eq_true (by linarith), show ((500:ℚ) ≤ a) = True from eq_true (by linarith), show ((1000:ℚ) ≤ a) = True from eq_true (by linarith), show ((2000:ℚ) ≤ a) = True from eq_true (by linarith), show ((5000:ℚ) ≤ a) = False from eq_false (by linarith), show ((10000:ℚ) ≤ a) = False from eq_false (by linarith), show ((20000:ℚ) ≤ a) = False from eq_false (by linarith), decide_False, decide_True]
    rw [hfilt]
    split_ifs <;> first | rfl | linarith
  rcases lt_or_le a 10000 with h8 | h8
  · by_cases heq : a = 5000
    · subst heq; decide
    unfold rateResolverSpec
    rw [find?_beq_none (by intro x hx; fin_cases hx <;> simp <;> intro hh <;> first | exact heq hh.symm | linarith)]
    have hfilt : tierTable.filter (fun m => decide (m.1 ≤ a)) = [((20:ℚ),(5:ℚ)), ((50:ℚ),(5:ℚ)), ((100:ℚ),(6:ℚ)), ((200:ℚ),(6:ℚ)), ((500:ℚ),(6:ℚ)), ((1000:ℚ),(7:ℚ)), ((2000:ℚ),(7:ℚ)), ((5000:ℚ),(7:ℚ))] := by
      simp only [tierTable, List.filter, show ((20:ℚ) ≤ a) = True from eq_true (by linarith), show ((50:ℚ) ≤ a) = True from eq_true (by linarith), show ((100:ℚ) ≤ a) = True from eq_true (by linarith), show ((200:ℚ) ≤ a) = True from eq_true (by linarith), show ((500:ℚ) ≤ a) = True from eq_true (by linarith), show ((1000:ℚ) ≤ a) = True from eq_true (by linarith), show ((2000:ℚ) ≤ a) = True from eq_true (by linarith), show ((5000:ℚ) ≤ a) = True from eq_true (by linarith), show ((10000:ℚ) ≤ a) = False from eq_false (by linarith), show ((20000:ℚ) ≤ a) = False from eq_false (by linarith), decide_False, decide_True]
    rw [hfilt]
    split_ifs <;> first | rfl | linarith
  rcases lt_or_le a 20000 with h9 | h9
  · by_cases heq : a = 10000
    · subst heq; decide
    unfold rateResolverSpec
    rw [find?_beq_none (by intro x hx; fin_cases hx <;> simp <;> intro hh <;> first | exact heq hh.symm | linarith)]
    have hfilt : tierTable.filter (fun m => decide (m.1 ≤ a)) = [((20:ℚ),(5:ℚ)), ((50:ℚ),(5:ℚ)), ((100:ℚ),(6:ℚ)), ((200:ℚ),(6:ℚ)), ((500:ℚ),(6:ℚ)), ((1000:ℚ),(7:ℚ)), ((2000:ℚ),(7:ℚ)), ((5000:ℚ),(7:ℚ)), ((10000:ℚ),(8:ℚ))] := by
      simp only [tierTable, List.filter, show ((20:ℚ) ≤ a) = True from eq_true (by linarith), show ((50:ℚ) ≤ a) = True from eq_true (by linarith), show ((100:ℚ) ≤ a) = True from eq_true (by linarith), show ((200:ℚ) ≤ a) = True from eq_true (by linarith), show ((500:ℚ) ≤ a) = True from eq_true (by linarith), show ((1000:ℚ) ≤ a) = True from eq_true (by linarith), show ((2000:ℚ) ≤ a) = True from eq_true (by linarith), show ((5000:ℚ) ≤ a) = True from eq_true (by linarith), show ((10000:ℚ) ≤ a) = True from eq_true (by linarith), show ((20000:ℚ) ≤ a) = False from eq_false (by linarith), decide_False, decide_True]
    rw [hfilt]
    split_ifs <;> first | rfl | linarith
  by_cases heq : a = 20000
  · subst heq; decide
  unfold rateResolverSpec
  rw [find?_beq_none (by intro x hx; fin_cases hx <;> simp <;> intro hh <;> first | exact heq hh.symm | linarith)]
  have hfilt : tierTable.filter (fun m => decide (m.1 ≤ a)) = [((20:ℚ),(5:ℚ)), ((50:ℚ),(5:ℚ)), ((100:ℚ),(6:ℚ)), ((200:ℚ),(6:ℚ)), ((500:ℚ),(6:ℚ)), ((1000:ℚ),(7:ℚ)), ((2000:ℚ),(7:ℚ)), ((5000:ℚ),(7:ℚ)), ((10000:ℚ),(8:ℚ)), ((20000:ℚ),(8:ℚ))] := by
    simp only [tierTable, List.filter, show ((20:ℚ) ≤ a) = True from eq_true (by linarith), show ((50:ℚ) ≤ a) = True from eq_true (by linarith), show ((100:ℚ) ≤ a) = True from eq_true (by linarith), show ((200:ℚ) ≤ a) = True from eq_true (by linarith), show ((500:ℚ) ≤ a) = True from eq_true (by linarith), show ((1000:ℚ) ≤ a) = True from eq_true (by linarith), show ((2000:ℚ) ≤ a) = True from eq_true (by linarith), show ((5000:ℚ) ≤ a) = True from eq_true (by linarith), show ((10000:ℚ) ≤ a) = True from eq_true (by linarith), show ((20000:ℚ) ≤ a) = True from eq_true (by linarith), decide_False, decide_True]
  rw [hfilt]
  split_ifs <;> first | rfl | linarith

theorem rateForAmount_nonneg (a : ℚ) : 0 ≤ rateForAmount a := by
  rw [rateForAmount_eq]
  split_ifs <;> norm_num

theorem round2_zero : round2 0 = 0 := round2_money2 money2_zero

theorem accrualUpto_mono (dep : Deposit) (start : ℕ) {t1 t2 : ℕ} (h : t1 ≤ t2) :
    accrualUpto dep start t1 ≤ accrualUpto dep start t2 := by
  unfold accrualUpto
  rcases dep.endDate with _ | e <;> simp <;> omega

theorem accrualUpto_const (dep : Deposit) (start : ℕ) {t : ℕ}
    (h : start + 86400 ≤ t) :
    accrualUpto dep start t = accrualUpto dep start (start + 86400) := by
  unfold accrualUpto
  rcases dep.endDate with _ | e <;> simp <;> omega

theorem profitForDeposit_closed (dep : Deposit) (start : ℕ)
    (h : depStart dep = some start) (asOf : ℕ) :
    profitForDeposit dep asOf =
      round2 (dep.amount * (effectiveRate dep / 100) *
        ((businessMinutesBetween start (accrualUpto dep start asOf) : ℚ) / 1440)) := by
  unfold profitForDeposit
  rw [h]
  simp only []
  have hupto :
      (if start + 86400 <
          (match dep.endDate with
           | some e => if e < asOf then e else asOf
           | none => asOf) then start + 86400
       else
         (match dep.endDate with
          | some e => if e < asOf then e else asOf
          | none => asOf)) = accrualUpto dep start asOf := by
    unfold accrualUpto
    rcases dep.endDate with _ | e <;> simp <;> split_ifs <;> omega
  rw [hupto]
  by_cases hle : accrualUpto dep start asOf ≤ start
  · rw [if_pos hle, businessMinutesBetween_zero_of_le hle]
    norm_num [round2_zero]
  · rw [if_neg hle]
    by_cases hm : businessMinutesBetween start (accrualUpto dep start asOf) = 0
    · rw [if_pos hm, hm]
      norm_num [round2_zero]
    · rw [if_neg hm]

theorem profitForDeposit_nonneg (dep : Deposit) (asOf : ℕ)
    (h0 : 0 ≤ dep.amount) (h1 : 0 ≤ effectiveRate dep) :
    0 ≤ profitForDeposit dep asOf := by
  rcases hS : depStart dep with _ | start
  · unfold profitForDeposit
    rw [hS]
  · rw [profitForDeposit_closed dep start hS]
    apply round2_nonneg
    have hm : (0 : ℚ) ≤ (businessMinutesBetween start (accrualUpto dep start asOf) : ℚ) := by
      positivity
    have hc : (0 : ℚ) ≤ dep.amount * (effectiveRate dep / 100) := by positivity
    positivity

theorem profitForDeposit_mono (dep : Deposit) {t1 t2 : ℕ}
    (h0 : 0 ≤ dep.amount) (h1 : 0 ≤ effectiveRate dep) (h : t1 ≤ t2) :
    profitForDeposit dep t1 ≤ profitForDeposit dep t2 := by
  rcases hS : depStart dep with _ | start
  · unfold profitForDeposit
    rw [hS]
  · rw [profitForDeposit_closed dep start hS, profitForDeposit_closed dep start hS]
    apply round2_mono
    have hm : businessMinutesBetween start (accrualUpto dep start t1) ≤
        businessMinutesBetween start (accrualUpto dep start t2) :=
      businessMinutesBetween_mono (accrualUpto_mono dep start h)
    have hmq : (businessMinutesBetween start (accrualUpto dep start t1) : ℚ) ≤
        (businessMinutesBetween start (accrualUpto dep start t2) : ℚ) := by
      exact_mod_cast hm
    have hc : (0 : ℚ) ≤ dep.amount * (effectiveRate dep / 100) := by positivity
    have hdiv : (businessMinutesBetween start (accrualUpto dep start t1) : ℚ) / 1440 ≤
        (businessMinutesBetween start (accrualUpto dep start t2) : ℚ) / 1440 := by
      linarith
    exact mul_le_mul_of_nonneg_left hdiv hc

theorem profitForDeposit_const_after_cap (dep : Deposit) {start t : ℕ}
    (hS : depStart dep = some start) (h : start + 86400 ≤ t) :
    profitForDeposit dep t = profitForDeposit dep (start + 86400) := by
  rw [profitForDeposit_closed dep start hS, profitForDeposit_closed dep start hS,
      accrualUpto_const dep start h]

theorem sub_min_self (a b : ℚ) : a - min a b = max 0 (a - b) := by
  rcases le_total a b with h | h
  · rw [min_eq_left h, max_eq_left (by linarith)]
    ring
  · rw [min_eq_right h, max_eq_right (by linarith)]

theorem money2_ofNat (n : ℕ) : money2 (n : ℚ) :=
  money2_iff.mpr ⟨n * 100, by push_cast; ring⟩

/-! ### Claims -/

/-- C1: cascading deduction takes the approved amount from the profit balance
first (up to the requested amount) and the remainder from the
referral-commission balance: for non-negative 2-decimal balances and amount,
the profit balance after equals `max 0 (profit - amount)` and the commission
balance after equals `max 0 (commission - max 0 (amount - profit))`; in
particular profit 30, commission 20, amount 40 gives profit-after 0,
commission-after 10, shortfall 0. -/
theorem C1_cascading_deduction (net ref amount : ℚ)
    (hnet0 : 0 ≤ net) (href0 : 0 ≤ ref) (hamt0 : 0 ≤ amount)
    (hnet2 : money2 net) (href2 : money2 ref) (hamt2 : money2 amount) :
    (deductFromUser net ref amount).netAfter = max 0 (net - amount) ∧
    (deductFromUser net ref amount).refAfter = max 0 (ref - max 0 (amount - net)) ∧
    deductFromUser 30 20 40 = { netAfter := 0, refAfter := 10, shortfall := 0 } := by
  refine ⟨?_, ?_, ?_⟩
  · show round2 (net - min net amount) = max 0 (net - amount)
    rw [sub_min_self]
    exact round2_money2 (money2_max money2_zero (money2_sub hnet2 hamt2))
  · show round2 (ref - min ref (amount - min net amount)) = max 0 (ref - max 0 (amount - net))
    rw [min_comm net amount, sub_min_self amount net, sub_min_self]
    exact round2_money2
      (money2_max money2_zero
        (money2_sub href2 (money2_max money2_zero (money2_sub hamt2 hnet2))))
  · norm_num [deductFromUser, round2, min_def]

/-- Witness for C1 at profit 30, commission 20, amount 40. -/
theorem C1_cascading_deduction_witness :
    (deductFromUser 30 20 40).netAfter = max 0 (30 - 40 : ℚ) ∧
    (deductFromUser 30 20 40).refAfter = max 0 ((20 : ℚ) - max 0 (40 - 30)) ∧
    deductFromUser 30 20 40 = { netAfter := 0, refAfter := 10, shortfall := 0 } :=
  C1_cascading_deduction 30 20 40 (by norm_num) (by norm_num) (by norm_num)
    (money2_ofNat 30) (money2_ofNat 20) (money2_ofNat 40)

/-- C2: a transaction whose status is not `pending` is terminal: every later
approval or rejection attempt of the matching kind fails with the
invalid-state ("Request already processed") error, and in every case the
stored transaction, user balances and referrer are left unchanged. -/
theorem C2_terminal_once (req : Option ℚ) (now : ℕ) (tx : Txn) (user : User)
    (referrer : Option User) (rate : ℚ) (h : tx.status ≠ TxStatus.pending) :
    (tx.type = TxType.withdraw →
      approveWithdraw req tx user = Except.error Err.invalidState ∧
      rejectWithdraw tx = Except.error Err.invalidState) ∧
    (tx.type = TxType.deposit →
      approveDeposit req now tx user referrer rate = Except.error Err.invalidState ∧
      rejectDeposit tx = Except.error Err.invalidState) ∧
    runApproveWithdraw req tx user = (tx, user) ∧
    runRejectWithdraw tx = tx ∧
    runApproveDeposit req now tx user referrer rate = (tx, user, referrer) ∧
    runRejectDeposit tx = tx := by
  refine ⟨fun htype => ⟨?_, ?_⟩, fun htype => ⟨?_, ?_⟩, ?_, ?_, ?_, ?_⟩
  · simp [approveWithdraw, htype, h]
  · simp [rejectWithdraw, htype, h]
  · simp [approveDeposit, htype, h]
  · simp [rejectDeposit, htype, h]
  · cases htt : tx.type <;> simp [runApproveWithdraw, approveWithdraw, htt, h]
  · cases htt : tx.type <;> simp [runRejectWithdraw, rejectWithdraw, htt, h]
  · cases htt : tx.type <;> simp [runApproveDeposit, approveDeposit, htt, h]
  · cases htt : tx.type <;> simp [runRejectDeposit, rejectDeposit, htt, h]

/-- Witness for C2: an already-approved withdrawal transaction. -/
theorem C2_terminal_once_witness :
    (TxType.withdraw = TxType.withdraw →
      approveWithdraw (some 40)
        { type := TxType.withdraw, status := TxStatus.approved, amount := 40,
          snapshotNet := some 30, approvedAmount := some 40, breakdownFromNet := none,
          planRate := none, detailsRate := none, planDays := none, detailsDays := none }
        { id := 1, capital := 100, netProfit := 50, referralEarnings := 20,
          deposits := [], referrals := [] } = Except.error Err.invalidState ∧
      rejectWithdraw
        { type := TxType.withdraw, status := TxStatus.approved, amount := 40,
          snapshotNet := some 30, approvedAmount := some 40, breakdownFromNet := none,
          planRate := none, detailsRate := none, planDays := none, detailsDays := none } =
        Except.error Err.invalidState) ∧
    (({ type := TxType.withdraw, status := TxStatus.approved, amount := 40,
        snapshotNet := some 30, approvedAmount := some 40, breakdownFromNet := none,
        planRate := none, detailsRate := none, planDays := none,
        detailsDays := none } : Txn).type = TxType.deposit →
      approveDeposit (some 40) 0
        { type := TxType.withdraw, status := TxStatus.approved, amount := 40,
          snapshotNet := some 30, approvedAmount := some 40, breakdownFromNet := none,
          planRate := none, detailsRate := none, planDays := none, detailsDays := none }
        { id := 1, capital := 100, netProfit := 50, referralEarnings := 20,
          deposits := [], referrals := [] } none (1 / 20) = Except.error Err.invalidState ∧
      rejectDeposit
        { type := TxType.withdraw, status := TxStatus.approved, amount := 40,
          snapshotNet := some 30, approvedAmount := some 40, breakdownFromNet := none,
          planRate := none, detailsRate := none, planDays := none, detailsDays := none } =
        Except.error Err.invalidState) ∧
    runApproveWithdraw (some 40)
      { type := TxType.withdraw, status := TxStatus.approved, amount := 40,
        snapshotNet := some 30, approvedAmount := some 40, breakdownFromNet := none,
        planRate := none, detailsRate := none, planDays := none, detailsDays := none }
      { id := 1, capital := 100, netProfit := 50, referralEarnings := 20,
        deposits := [], referrals := [] } =
      ({ type := TxType.withdraw, status := TxStatus.approved, amount := 40,
         snapshotNet := some 30, approvedAmount := some 40, breakdownFromNet := none,
         planRate := none, detailsRate := none, planDays := none, detailsDays := none },
       { id := 1, capital := 100, netProfit := 50, referralEarnings := 20,
         deposits := [], referrals := [] }) ∧
    runRejectWithdraw
      { type := TxType.withdraw, status := TxStatus.approved, amount := 40,
        snapshotNet := some 30, approvedAmount := some 40, breakdownFromNet := none,
        planRate := none, detailsRate := none, planDays := none, detailsDays := none } =
      { type := TxType.withdraw, status := TxStatus.approved, amount := 40,
        snapshotNet := some 30, approvedAmount := some 40, breakdownFromNet := none,
        planRate := none, detailsRate := none, planDays := none, detailsDays := none } ∧
    runApproveDeposit (some 40) 0
      { type := TxType.withdraw, status := TxStatus.approved, amount := 40,
        snapshotNet := some 30, approvedAmount := some 40, breakdownFromNet := none,
        planRate := none, detailsRate := none, planDays := none, detailsDays := none }
      { id := 1, capital := 100, netProfit := 50, referralEarnings := 20,
        deposits := [], referrals := [] } none (1 / 20) =
      ({ type := TxType.withdraw, status := TxStatus.approved, amount := 40,
         snapshotNet := some 30, approvedAmount := some 40, breakdownFromNet := none,
         planRate := none, detailsRate := none, planDays := none, detailsDays := none },
       { id := 1, capital := 100, netProfit := 50, referralEarnings := 20,
         deposits := [], referrals := [] }, none) ∧
    runRejectDeposit
      { type := TxType.withdraw, status := TxStatus.approved, amount := 40,
        snapshotNet := some 30, approvedAmount := some 40, breakdownFromNet := none,
        planRate := none, detailsRate := none, planDays := none, detailsDays := none } =
      { type := TxType.withdraw, status := TxStatus.approved, amount := 40,
        snapshotNet := some 30, approvedAmount := some 40, breakdownFromNet := none,
        planRate := none, detailsRate := none, planDays := none, detailsDays := none } :=
  C2_terminal_once (some 40) 0
    { type := TxType.withdraw, status := TxStatus.approved, amount := 40,
      snapshotNet := some 30, approvedAmount := some 40, breakdownFromNet := none,
      planRate := none, detailsRate := none, planDays := none, detailsDays := none }
    { id := 1, capital := 100, netProfit := 50, referralEarnings := 20,
      deposits := [], referrals := [] } none (1 / 20) (by decide)

theorem foldl_add_eq_sum {α : Type} (f : α → ℚ) (l : List α) (init : ℚ) :
    l.foldl (fun acc x => acc + f x) init = init + (l.map f).sum := by
  induction l generalizing init with
  | nil => simp
  | cons x xs ih =>
    simp only [List.foldl_cons, List.map_cons, List.sum_cons, ih]
    ring

theorem clamp_eq_max (x : ℚ) : (if x < 0 then 0 else x) = max 0 x := by
  rcases le_or_lt 0 x with h | h
  · rw [if_neg (not_lt.mpr h), max_eq_right h]
  · rw [if_pos h, max_eq_left (le_of_lt h)]

/-- C3: net-profit recomputation returns
`max 0 (grossAccrued - totalWithdrawnFromProfit)` rounded to 2 decimals,
where `grossAccrued` sums the accrual of every active deposit and
`totalWithdrawnFromProfit` sums, over every approved withdrawal, the
recorded from-profit breakdown when present and otherwise
`min(netProfit snapshot, approvedAmount)`; the result is non-negative. -/
theorem C3_net_profit_recompute (user : User) (txs : List Txn) (now : ℕ) :
    computeNetProfit user txs now =
      round2 (max 0 (grossAccrued user now - totalWithdrawnFromProfit txs)) ∧
    0 ≤ computeNetProfit user txs now := by
  have h1 : computeNetProfit user txs now =
      round2 (max 0 (grossAccrued user now - totalWithdrawnFromProfit txs)) := by
    unfold computeNetProfit grossAccrued totalWithdrawnFromProfit
    rw [foldl_add_eq_sum, foldl_add_eq_sum]
    simp only [zero_add]
    rw [clamp_eq_max]
  refine ⟨h1, ?_⟩
  rw [h1]
  exact round2_nonneg (le_max_left 0 _)

theorem depMatured_eq_true {now : ℕ} {dep : Deposit} {s : ℕ}
    (hact : dep.status = DepStatus.active) (hS : depStart dep = some s)
    (h : s + 86400 ≤ now) : depMatured now dep = true := by
  simp [depMatured, hact, hS, h]

theorem finDep_matured {now : ℕ} {dep : Deposit} {s : ℕ}
    (hact : dep.status = DepStatus.active) (hS : depStart dep = some s)
    (h : s + 86400 ≤ now) :
    finDep now dep =
      { dep with status := DepStatus.completed, endDate := some (s + 86400),
                 startDate := some s } := by
  unfold finDep
  rw [if_pos (depMatured_eq_true hact hS h), hS]

theorem finDep_not_matured {now : ℕ} {dep : Deposit}
    (h : ¬ depMatured now dep = true) : finDep now dep = dep := by
  unfold finDep
  rw [if_neg h]

theorem depMatured_finDep (now : ℕ) (dep : Deposit) :
    depMatured now (finDep now dep) = false := by
  by_cases hm : depMatured now dep = true
  · unfold finDep
    rw [if_pos hm]
    rcases hS : depStart dep with _ | s
    · exfalso
      rcases hact : dep.status with _ | _ <;> simp [depMatured, hact, hS] at hm
    · simp [depMatured]
  · rw [finDep_not_matured hm]
    simpa using hm

theorem finDep_idem (now : ℕ) (dep : Deposit) :
    finDep now (finDep now dep) = finDep now dep :=
  finDep_not_matured (by simp [depMatured_finDep])

theorem finCap_finDep (now : ℕ) (c : ℚ) (d : Deposit) :
    finCap now c (finDep now d) = c := by
  unfold finCap
  rw [depMatured_finDep]
  simp

theorem foldl_finCap_map (now : ℕ) (l : List Deposit) (c : ℚ) :
    (l.map (finDep now)).foldl (finCap now) c = c := by
  induction l generalizing c with
  | nil => rfl
  | cons d ds ih =>
    simp only [List.map_cons, List.foldl_cons, finCap_finDep]
    exact ih c

theorem finCap_eq_max (now : ℕ) (c : ℚ) (d : Deposit) :
    finCap now c d = if depMatured now d then max 0 (c - d.amount) else c := by
  unfold finCap
  by_cases hm : depMatured now d = true
  · rw [if_pos hm, if_pos hm, clamp_eq_max]
  · rw [if_neg hm, if_neg hm]

/-- C4: the balance-read maturity pass transitions every active deposit whose
start is at least 60 calendar days old to `completed` with `endDate` the
maturity instant `start + 60` days; each matured deposit's amount is
subtracted from the principal clamped at zero (stated both as the general
per-deposit fold and for a single-deposit account); completed deposits are
not reprocessed: a second run is a no-op. -/
theorem C4_maturity_finalization (now : ℕ) (u : User) :
    (∀ (i : ℕ) (d : Deposit) (s : ℕ), u.deposits[i]? = some d → d.status = DepStatus.active →
      depStart d = some s → s + 86400 ≤ now →
      (finalizeDeposits now u).deposits[i]? =
        some { d with status := DepStatus.completed, endDate := some (s + 86400),
                      startDate := some s }) ∧
    (finalizeDeposits now u).capital =
      u.deposits.foldl
        (fun c d => if depMatured now d then max 0 (c - d.amount) else c) u.capital ∧
    (∀ d s, u.deposits = [d] → d.status = DepStatus.active → depStart d = some s →
      s + 86400 ≤ now →
      (finalizeDeposits now u).capital = max 0 (u.capital - d.amount)) ∧
    finalizeDeposits now (finalizeDeposits now u) = finalizeDeposits now u := by
  refine ⟨?_, ?_, ?_, ?_⟩
  · intro i d s hd hact hS h
    unfold finalizeDeposits
    simp only [List.getElem?_map, hd, Option.map_some']
    rw [finDep_matured hact hS h]
  · unfold finalizeDeposits
    simp only []
    congr 1
    funext c d
    exact finCap_eq_max now c d
  · intro d s hdeps hact hS h
    unfold finalizeDeposits
    simp only [hdeps, List.foldl_cons, List.foldl_nil]
    rw [finCap_eq_max, if_pos (depMatured_eq_true hact hS h)]
  · unfold finalizeDeposits
    simp only [List.map_map, foldl_finCap_map]
    congr 1
    apply List.map_congr_left
    intro d _
    exact finDep_idem now d

/-- Witness for C4: one active deposit of 500 started 61 days before `now`,
on an account with capital 600. -/
theorem C4_maturity_finalization_witness :
    ((∀ (i : ℕ) (d : Deposit) (s : ℕ),
      ({ id := 7, capital := 600, netProfit := 0, referralEarnings := 0,
         deposits := [{ amount := 500, ratePercent := some 6, days := 60,
                        startDate := some 0, approvedAt := some 0, endDate := none,
                        status := DepStatus.active }],
         referrals := [] } : User).deposits[i]? = some d →
      d.status = DepStatus.active → depStart d = some s → s + 86400 ≤ 87840 →
      (finalizeDeposits 87840
        { id := 7, capital := 600, netProfit := 0, referralEarnings := 0,
          deposits := [{ amount := 500, ratePercent := some 6, days := 60,
                         startDate := some 0, approvedAt := some 0, endDate := none,
                         status := DepStatus.active }],
          referrals := [] }).deposits[i]? =
        some { d with status := DepStatus.completed, endDate := some (s + 86400),
                      startDate := some s }) ∧
    (finalizeDeposits 87840
      { id := 7, capital := 600, netProfit := 0, referralEarnings := 0,
        deposits := [{ amount := 500, ratePercent := some 6, days := 60,
                       startDate := some 0, approvedAt := some 0, endDate := none,
                       status := DepStatus.active }],
        referrals := [] }).capital =
      ({ id := 7, capital := 600, netProfit := 0, referralEarnings := 0,
         deposits := [{ amount := 500, ratePercent := some 6, days := 60,
                        startDate := some 0, approvedAt := some 0, endDate := none,
                        status := DepStatus.active }],
         referrals := [] } : User).deposits.foldl
        (fun c d => if depMatured 87840 d then max 0 (c - d.amount) else c) 600 ∧
    (∀ d s,
      ({ id := 7, capital := 600, netProfit := 0, referralEarnings := 0,
         deposits := [{ amount := 500, ratePercent := some 6, days := 60,
                        startDate := some 0, approvedAt := some 0, endDate := none,
                        status := DepStatus.active }],
         referrals := [] } : User).deposits = [d] →
      d.status = DepStatus.active → depStart d = some s → s + 86400 ≤ 87840 →
      (finalizeDeposits 87840
        { id := 7, capital := 600, netProfit := 0, referralEarnings := 0,
          deposits := [{ amount := 500, ratePercent := some 6, days := 60,
                         startDate := some 0, approvedAt := some 0, endDate := none,
                         status := DepStatus.active }],
          referrals := [] }).capital = max 0 (600 - d.amount)) ∧
    finalizeDeposits 87840
      (finalizeDeposits 87840
        { id := 7, capital := 600, netProfit := 0, referralEarnings := 0,
          deposits := [{ amount := 500, ratePercent := some 6, days := 60,
                         startDate := some 0, approvedAt := some 0, endDate := none,
                         status := DepStatus.active }],
          referrals := [] }) =
      finalizeDeposits 87840
        { id := 7, capital := 600, netProfit := 0, referralEarnings := 0,
          deposits := [{ amount := 500, ratePercent := some 6, days := 60,
                         startDate := some 0, approvedAt := some 0, endDate := none,
                         status := DepStatus.active }],
          referrals := [] }) :=
  C4_maturity_finalization 87840
    { id := 7, capital := 600, netProfit := 0, referralEarnings := 0,
      deposits := [{ amount := 500, ratePercent := some 6, days := 60,
                     startDate := some 0, approvedAt := some 0, endDate := none,
                     status := DepStatus.active }],
      referrals := [] }

theorem approveWithdraw_spec (req : Option ℚ) (tx : Txn) (u : User) :
    (∃ e, approveWithdraw req tx u = Except.error e) ∨
    (approveWithdraw req tx u =
      Except.ok
        { user :=
            { u with
              netProfit :=
                (deductFromUser u.netProfit u.referralEarnings (req.getD tx.amount)).netAfter,
              referralEarnings :=
                (deductFromUser u.netProfit u.referralEarnings (req.getD tx.amount)).refAfter },
          tx := { tx with status := TxStatus.approved,
                          approvedAmount := some (req.getD tx.amount) },
          audit := deductFromUser u.netProfit u.referralEarnings (req.getD tx.amount) } ∧
      req.getD tx.amount ≤ u.netProfit + u.referralEarnings) := by
  unfold approveWithdraw
  dsimp only
  split_ifs with h1 h2 h3
  · exact Or.inl ⟨_, rfl⟩
  · exact Or.inl ⟨_, rfl⟩
  · exact Or.inl ⟨_, rfl⟩
  · exact Or.inr ⟨rfl, not_lt.mp h3⟩

theorem approveDeposit_spec (req : Option ℚ) (now : ℕ) (tx : Txn) (u : User)
    (referrer : Option User) (rate : ℚ) :
    (∃ e, approveDeposit req now tx u referrer rate = Except.error e) ∨
    approveDeposit req now tx u referrer rate =
      Except.ok
        { user :=
            { u with
              deposits := u.deposits ++
                [{ amount := req.getD tx.amount,
                   ratePercent :=
                     some ((tx.planRate.orElse (fun _ => tx.detailsRate)).getD
                       (rateForAmount (req.getD tx.amount))),
                   days := (tx.planDays.orElse (fun _ => tx.detailsDays)).getD 60,
                   startDate := some now, approvedAt := some now,
                   endDate :=
                     some (now + ((tx.planDays.orElse (fun _ => tx.detailsDays)).getD 60) * 1440),
                   status := DepStatus.active }],
              capital := round2 (u.capital + req.getD tx.amount) },
          tx := { tx with status := TxStatus.approved,
                          approvedAmount := some (req.getD tx.amount) },
          referrer := referrer.map (fun r => creditReferral r u.id (req.getD tx.amount) rate) } := by
  unfold approveDeposit
  dsimp only
  split_ifs with h1 h2
  · exact Or.inl ⟨_, rfl⟩
  · exact Or.inl ⟨_, rfl⟩
  · exact Or.inr rfl

theorem deductFromUser_shortfall_eq (net ref amount : ℚ) :
    (deductFromUser net ref amount).shortfall =
      round2 (max 0 (max 0 (amount - net) - ref)) := by
  show round2 (amount - min net amount - min ref (amount - min net amount)) = _
  rw [min_comm net amount, sub_min_self amount net, min_comm ref, sub_min_self]

/-- C5 counterexample: with profit 10, commission 5 and approved amount 40,
`approveWithdraw` fails the balance validation and returns an error — no
settlement outcome exists at all, so no shortfall of 25 is reported in any
settlement outcome, and the records are unchanged. -/
theorem C5_shortfall_counterexample :
    approveWithdraw (some 40)
      { type := TxType.withdraw, status := TxStatus.pending, amount := 40,
        snapshotNet := some 10, approvedAmount := none, breakdownFromNet := none,
        planRate := none, detailsRate := none, planDays := none, detailsDays := none }
      { id := 3, capital := 0, netProfit := 10, referralEarnings := 5,
        deposits := [], referrals := [] } = Except.error Err.validation ∧
    runApproveWithdraw (some 40)
      { type := TxType.withdraw, status := TxStatus.pending, amount := 40,
        snapshotNet := some 10, approvedAmount := none, breakdownFromNet := none,
        planRate := none, detailsRate := none, planDays := none, detailsDays := none }
      { id := 3, capital := 0, netProfit := 10, referralEarnings := 5,
        deposits := [], referrals := [] } =
      ({ type := TxType.withdraw, status := TxStatus.pending, amount := 40,
         snapshotNet := some 10, approvedAmount := none, breakdownFromNet := none,
         planRate := none, detailsRate := none, planDays := none, detailsDays := none },
       { id := 3, capital := 0, netProfit := 10, referralEarnings := 5,
         deposits := [], referrals := [] }) := by
  have h : approveWithdraw (some 40)
      { type := TxType.withdraw, status := TxStatus.pending, amount := 40,
        snapshotNet := some 10, approvedAmount := none, breakdownFromNet := none,
        planRate := none, detailsRate := none, planDays := none, detailsDays := none }
      { id := 3, capital := 0, netProfit := 10, referralEarnings := 5,
        deposits := [], referrals := [] } = Except.error Err.validation := by
    norm_num [approveWithdraw]
  exact ⟨h, by rw [runApproveWithdraw, h]⟩

/-- C5 (amended): an over-draw cannot reach the cascading deduction: approving
an amount that exceeds `netProfit + referralEarnings` fails with the
validation error surfaced to the administrator (as at profit 10, commission 5,
amount 40) and mutates nothing, so every successful settlement stores
shortfall 0 in its audit metadata; the deduction helper itself computes the
shortfall (25 at profit 10, commission 5, amount 40) and merely returns it in
its result. -/
theorem C5_shortfall_amended (req : Option ℚ) (tx : Txn) (u : User)
    (href : 0 ≤ u.referralEarnings) :
    (∀ o, approveWithdraw req tx u = Except.ok o → o.audit.shortfall = 0) ∧
    (deductFromUser 10 5 40).shortfall = 25 ∧
    approveWithdraw (some 40)
      { type := TxType.withdraw, status := TxStatus.pending, amount := 40,
        snapshotNet := some 10, approvedAmount := none, breakdownFromNet := none,
        planRate := none, detailsRate := none, planDays := none, detailsDays := none }
      { id := 3, capital := 0, netProfit := 10, referralEarnings := 5,
        deposits := [], referrals := [] } = Except.error Err.validation := by
  refine ⟨?_, ?_, ?_⟩
  · intro o ho
    rcases approveWithdraw_spec req tx u with ⟨e, he⟩ | ⟨heq, hle⟩
    · rw [he] at ho
      exact absurd ho (by simp)
    · rw [heq] at ho
      simp only [Except.ok.injEq] at ho
      subst ho
      show (deductFromUser u.netProfit u.referralEarnings (req.getD tx.amount)).shortfall = 0
      rw [deductFromUser_shortfall_eq]
      have hX : max 0 (req.getD tx.amount - u.netProfit) - u.referralEarnings ≤ 0 := by
        rcases le_total (req.getD tx.amount - u.netProfit) 0 with hc | hc
        · rw [max_eq_left hc]
          linarith
        · rw [max_eq_right hc]
          linarith
      rw [max_eq_left hX, round2_zero]
  · norm_num [deductFromUser, round2, min_def]
  · norm_num [approveWithdraw]

/-- Witness for C5 (amended): a successful settlement (profit 30, commission
20, approve 40) whose audit shortfall is 0. -/
theorem C5_shortfall_amended_witness :
    (∀ o, approveWithdraw (some 40)
      { type := TxType.withdraw, status := TxStatus.pending, amount := 40,
        snapshotNet := some 30, approvedAmount := none, breakdownFromNet := none,
        planRate := none, detailsRate := none, planDays := none, detailsDays := none }
      { id := 4, capital := 0, netProfit := 30, referralEarnings := 20,
        deposits := [], referrals := [] } = Except.ok o → o.audit.shortfall = 0) ∧
    (deductFromUser 10 5 40).shortfall = 25 ∧
    approveWithdraw (some 40)
      { type := TxType.withdraw, status := TxStatus.pending, amount := 40,
        snapshotNet := some 10, approvedAmount := none, breakdownFromNet := none,
        planRate := none, detailsRate := none, planDays := none, detailsDays := none }
      { id := 3, capital := 0, netProfit := 10, referralEarnings := 5,
        deposits := [], referrals := [] } = Except.error Err.validation :=
  C5_shortfall_amended (some 40)
    { type := TxType.withdraw, status := TxStatus.pending, amount := 40,
      snapshotNet := some 30, approvedAmount := none, breakdownFromNet := none,
      planRate := none, detailsRate := none, planDays := none, detailsDays := none }
    { id := 4, capital := 0, netProfit := 30, referralEarnings := 20,
      deposits := [], referrals := [] } (by norm_num)

theorem deduct_netAfter_nonneg (net ref amount : ℚ) :
    0 ≤ (deductFromUser net ref amount).netAfter := by
  show 0 ≤ round2 (net - min net amount)
  rw [sub_min_self]
  exact round2_nonneg (le_max_left 0 _)

theorem deduct_refAfter_nonneg (net ref amount : ℚ) :
    0 ≤ (deductFromUser net ref amount).refAfter := by
  show 0 ≤ round2 (ref - min ref (amount - min net amount))
  rw [sub_min_self]
  exact round2_nonneg (le_max_left 0 _)

theorem deduct_netAfter_money2 (net ref amount : ℚ) :
    money2 (deductFromUser net ref amount).netAfter := by
  show money2 (round2 (net - min net amount))
  exact money2_round2 _

theorem deduct_refAfter_money2 (net ref amount : ℚ) :
    money2 (deductFromUser net ref amount).refAfter := by
  show money2 (round2 (ref - min ref (amount - min net amount)))
  exact money2_round2 _

theorem foldl_finCap_good (now : ℕ) (l : List Deposit) (c : ℚ)
    (hc0 : 0 ≤ c) (hc2 : money2 c)
    (hl : ∀ d ∈ l, 0 ≤ d.amount ∧ money2 d.amount) :
    0 ≤ l.foldl (finCap now) c ∧ money2 (l.foldl (finCap now) c) := by
  induction l generalizing c with
  | nil => exact ⟨hc0, hc2⟩
  | cons d ds ih =>
    rw [List.foldl_cons]
    have hd := hl d (by simp)
    have hstep : 0 ≤ finCap now c d ∧ money2 (finCap now c d) := by
      unfold finCap
      dsimp only
      split_ifs with h1 h2
      · exact ⟨le_refl 0, money2_zero⟩
      · exact ⟨not_lt.mp h2, money2_sub hc2 hd.2⟩
      · exact ⟨hc0, hc2⟩
    exact ih (finCap now c d) hstep.1 hstep.2 (fun d hd => hl d (by simp [hd]))

theorem computeNetProfit_nonneg (u : User) (txs : List Txn) (now : ℕ) :
    0 ≤ computeNetProfit u txs now := by
  unfold computeNetProfit
  dsimp only
  apply round2_nonneg
  split_ifs with h
  · exact le_refl 0
  · exact not_lt.mp h

theorem computeNetProfit_money2 (u : User) (txs : List Txn) (now : ℕ) :
    money2 (computeNetProfit u txs now) := by
  unfold computeNetProfit
  exact money2_round2 _

/-- C6: each core operation preserves the Account monetary invariant: after a
withdrawal settlement, a deposit approval with referral crediting, a maturity
finalization or a net-profit recomputation, `capital`, `netProfit` and
`referralEarnings` are non-negative exact 2-decimal values. -/
theorem C6_monetary_invariant (now : ℕ) (req : Option ℚ) (tx : Txn) (u : User)
    (referrer : Option User) (rate : ℚ) (txs : List Txn)
    (hu : GoodUser u) (href : GoodOptUser referrer)
    (hamt0 : 0 ≤ req.getD tx.amount) (hrate : 0 ≤ rate) :
    GoodWOut (approveWithdraw req tx u) ∧
    GoodDOut (approveDeposit req now tx u referrer rate) ∧
    GoodFields (finalizeDeposits now u) ∧
    GoodFields (overviewUpdate now txs u) := by
  obtain ⟨⟨hc0, hc2, hn0, hn2, hr0, hr2⟩, hdeps⟩ := hu
  have hfin : GoodFields (finalizeDeposits now u) := by
    have hcap := foldl_finCap_good now u.deposits u.capital hc0 hc2 hdeps
    exact ⟨hcap.1, hcap.2, hn0, hn2, hr0, hr2⟩
  refine ⟨?_, ?_, hfin, ?_⟩
  · rcases approveWithdraw_spec req tx u with ⟨e, he⟩ | ⟨heq, _⟩
    · rw [he]
      simp [GoodWOut]
    · rw [heq]
      show GoodFields _
      exact ⟨hc0, hc2,
        deduct_netAfter_nonneg u.netProfit u.referralEarnings (req.getD tx.amount),
        deduct_netAfter_money2 u.netProfit u.referralEarnings (req.getD tx.amount),
        deduct_refAfter_nonneg u.netProfit u.referralEarnings (req.getD tx.amount),
        deduct_refAfter_money2 u.netProfit u.referralEarnings (req.getD tx.amount)⟩
  · rcases approveDeposit_spec req now tx u referrer rate with ⟨e, he⟩ | heq
    · rw [he]
      simp [GoodDOut]
    · rw [heq]
      show GoodFields _ ∧ GoodOptUser _
      constructor
      · exact ⟨round2_nonneg (add_nonneg hc0 hamt0), money2_round2 _, hn0, hn2, hr0, hr2⟩
      · rcases referrer with _ | r
        · exact trivial
        · obtain ⟨hrc0, hrc2, hrn0, hrn2, hrr0, hrr2⟩ := href
          show GoodFields (creditReferral r u.id (req.getD tx.amount) rate)
          exact ⟨hrc0, hrc2, hrn0, hrn2,
            add_nonneg hrr0 (round2_nonneg (mul_nonneg hamt0 hrate)),
            money2_add hrr2 (money2_round2 _)⟩
  · obtain ⟨hfc0, hfc2, _, _, hfr0, hfr2⟩ := hfin
    exact ⟨hfc0, hfc2, computeNetProfit_nonneg _ _ _, computeNetProfit_money2 _ _ _,
      hfr0, hfr2⟩

/-- Witness for C6: a concrete account, pending withdrawal of 40, referrer and
referral rate 0.05. -/
theorem C6_monetary_invariant_witness :
    GoodWOut (approveWithdraw (some 40)
      { type := TxType.withdraw, status := TxStatus.pending, amount := 40,
        snapshotNet := some 30, approvedAmount := none, breakdownFromNet := none,
        planRate := none, detailsRate := none, planDays := none, detailsDays := none }
      { id := 9, capital := 600, netProfit := 50, referralEarnings := 20,
        deposits := [{ amount := 500, ratePercent := some 6, days := 60,
                       startDate := some 0, approvedAt := some 0, endDate := none,
                       status := DepStatus.active }],
        referrals := [] }) ∧
    GoodDOut (approveDeposit (some 40) 87840
      { type := TxType.withdraw, status := TxStatus.pending, amount := 40,
        snapshotNet := some 30, approvedAmount := none, breakdownFromNet := none,
        planRate := none, detailsRate := none, planDays := none, detailsDays := none }
      { id := 9, capital := 600, netProfit := 50, referralEarnings := 20,
        deposits := [{ amount := 500, ratePercent := some 6, days := 60,
                       startDate := some 0, approvedAt := some 0, endDate := none,
                       status := DepStatus.active }],
        referrals := [] }
      (some { id := 2, capital := 100, netProfit := 5, referralEarnings := 10,
              deposits := [], referrals := [] }) (1 / 20)) ∧
    GoodFields (finalizeDeposits 87840
      { id := 9, capital := 600, netProfit := 50, referralEarnings := 20,
        deposits := [{ amount := 500, ratePercent := some 6, days := 60,
                       startDate := some 0, approvedAt := some 0, endDate := none,
                       status := DepStatus.active }],
        referrals := [] }) ∧
    GoodFields (overviewUpdate 87840 []
      { id := 9, capital := 600, netProfit := 50, referralEarnings := 20,
        deposits := [{ amount := 500, ratePercent := some 6, days := 60,
                       startDate := some 0, approvedAt := some 0, endDate := none,
                       status := DepStatus.active }],
        referrals := [] }) :=
  C6_monetary_invariant 87840 (some 40)
    { type := TxType.withdraw, status := TxStatus.pending, amount := 40,
      snapshotNet := some 30, approvedAmount := none, breakdownFromNet := none,
      planRate := none, detailsRate := none, planDays := none, detailsDays := none }
    { id := 9, capital := 600, netProfit := 50, referralEarnings := 20,
      deposits := [{ amount := 500, ratePercent := some 6, days := 60,
                     startDate := some 0, approvedAt := some 0, endDate := none,
                     status := DepStatus.active }],
      referrals := [] }
    (some { id := 2, capital := 100, netProfit := 5, referralEarnings := 10,
            deposits := [], referrals := [] }) (1 / 20) []
    ⟨⟨by norm_num, money2_iff.mpr ⟨60000, by norm_num⟩, by norm_num,
      money2_iff.mpr ⟨5000, by norm_num⟩, by norm_num,
      money2_iff.mpr ⟨2000, by norm_num⟩⟩,
     by
      intro d hd
      simp only [List.mem_singleton] at hd
      subst hd
      exact ⟨by norm_num, money2_iff.mpr ⟨50000, by norm_num⟩⟩⟩
    ⟨by norm_num, money2_iff.mpr ⟨10000, by norm_num⟩, by norm_num,
     money2_iff.mpr ⟨500, by norm_num⟩, by norm_num,
     money2_iff.mpr ⟨1000, by norm_num⟩⟩
    (by norm_num) (by norm_num)

/-- C7 counterexample: a deposit approved with a 30-day plan window is created
with `endDate = startDate + 30` calendar days, but once 60 calendar days have
passed the maturity pass overwrites `endDate` with `startDate + 60` days while
`windowDays` stays 30 — so after maturity finalization `endTime` no longer
equals `startTime + windowDays`, refuting the claim for
`windowDays ≠ 60`. -/
theorem C7_endTime_counterexample :
    ((runApproveDeposit none 0
        { type := TxType.deposit, status := TxStatus.pending, amount := 100,
          snapshotNet := none, approvedAmount := none, breakdownFromNet := none,
          planRate := none, detailsRate := none, planDays := some 30, detailsDays := none }
        { id := 5, capital := 0, netProfit := 0, referralEarnings := 0,
          deposits := [], referrals := [] }
        none (1 / 20)).2.1.deposits.map (fun d => (d.endDate, d.days)) =
      [(some 43200, 30)]) ∧
    ((finalizeDeposits 86400
        (runApproveDeposit none 0
          { type := TxType.deposit, status := TxStatus.pending, amount := 100,
            snapshotNet := none, approvedAmount := none, breakdownFromNet := none,
            planRate := none, detailsRate := none, planDays := some 30, detailsDays := none }
          { id := 5, capital := 0, netProfit := 0, referralEarnings := 0,
            deposits := [], referrals := [] }
          none (1 / 20)).2.1).deposits.map (fun d => (d.endDate, d.days)) =
      [(some 86400, 30)]) ∧
    (86400 : ℕ) ≠ 0 + 30 * 1440 := by
  refine ⟨?_, ?_, by norm_num⟩
  · norm_num [runApproveDeposit, approveDeposit, Option.orElse, Option.getD]
  · norm_num [runApproveDeposit, approveDeposit, finalizeDeposits, finDep,
      depMatured, depStart, Option.orElse, Option.getD]

/-- C7 (amended): `endDate = startDate + windowDays` (calendar days) holds for
a deposit at creation by deposit approval; maturity finalization instead sets
`endDate` to `startDate + 60` calendar days regardless of `windowDays`
(leaving `windowDays` untouched), so after finalization the invariant
`endDate = startDate + windowDays` holds exactly when `windowDays = 60`. -/
theorem C7_endTime_amended (req : Option ℚ) (now : ℕ) (tx : Txn) (u : User)
    (referrer : Option User) (rate : ℚ) :
    (∀ o, approveDeposit req now tx u referrer rate = Except.ok o →
      ∃ dep, o.user.deposits.getLast? = some dep ∧ dep.startDate = some now ∧
        dep.endDate = some (now + dep.days * 1440)) ∧
    (∀ (dep : Deposit) (s : ℕ), dep.status = DepStatus.active →
      depStart dep = some s → s + 86400 ≤ now →
      (finDep now dep).endDate = some (s + 86400) ∧
      (finDep now dep).days = dep.days ∧
      ((finDep now dep).endDate = some (s + (finDep now dep).days * 1440) ↔
        dep.days = 60)) := by
  constructor
  · intro o ho
    rcases approveDeposit_spec req now tx u referrer rate with ⟨e, he⟩ | heq
    · rw [he] at ho
      exact absurd ho (by simp)
    · rw [heq] at ho
      simp only [Except.ok.injEq] at ho
      subst ho
      refine ⟨{ amount := req.getD tx.amount,
                ratePercent := some ((tx.planRate.orElse (fun _ => tx.detailsRate)).getD
                  (rateForAmount (req.getD tx.amount))),
                days := (tx.planDays.orElse (fun _ => tx.detailsDays)).getD 60,
                startDate := some now, approvedAt := some now,
                endDate := some (now +
                  ((tx.planDays.orElse (fun _ => tx.detailsDays)).getD 60) * 1440),
                status := DepStatus.active }, ?_, rfl, rfl⟩
      show (u.deposits ++ [_]).getLast? = _
      rw [List.getLast?_concat]
  · intro dep s hact hS h
    rw [finDep_matured hact hS h]
    refine ⟨rfl, rfl, ?_⟩
    constructor
    · intro he
      simp only [Option.some.injEq] at he
      omega
    · intro hd
      rw [hd]

/-- Witness for C7 (amended): the 30-day-window deposit transaction of the
counterexample, approved at instant 0 and finalized at day 61. -/
theorem C7_endTime_amended_witness :
    (∀ o, approveDeposit none 87840
      { type := TxType.deposit, status := TxStatus.pending, amount := 100,
        snapshotNet := none, approvedAmount := none, breakdownFromNet := none,
        planRate := none, detailsRate := none, planDays := some 30, detailsDays := none }
      { id := 5, capital := 0, netProfit := 0, referralEarnings := 0,
        deposits := [], referrals := [] } none (1 / 20) = Except.ok o →
      ∃ dep, o.user.deposits.getLast? = some dep ∧ dep.startDate = some 87840 ∧
        dep.endDate = some (87840 + dep.days * 1440)) ∧
    (∀ (dep : Deposit) (s : ℕ), dep.status = DepStatus.active →
      depStart dep = some s → s + 86400 ≤ 87840 →
      (finDep 87840 dep).endDate = some (s + 86400) ∧
      (finDep 87840 dep).days = dep.days ∧
      ((finDep 87840 dep).endDate = some (s + (finDep 87840 dep).days * 1440) ↔
        dep.days = 60)) :=
  C7_endTime_amended none 87840
    { type := TxType.deposit, status := TxStatus.pending, amount := 100,
      snapshotNet := none, approvedAmount := none, breakdownFromNet := none,
      planRate := none, detailsRate := none, planDays := some 30, detailsDays := none }
    { id := 5, capital := 0, netProfit := 0, referralEarnings := 0,
      deposits := [], referrals := [] } none (1 / 20)

/-- C8: for a deposit with non-negative amount and effective rate, the accrual
function is non-negative, monotonically non-decreasing in the as-of time, and
constant at and beyond the 60-calendar-day cap `start + 86400` minutes. -/
theorem C8_accrual_shape (dep : Deposit) (t1 t2 : ℕ)
    (hamt : 0 ≤ dep.amount) (hrate : 0 ≤ effectiveRate dep) :
    0 ≤ profitForDeposit dep t1 ∧
    (t1 ≤ t2 → profitForDeposit dep t1 ≤ profitForDeposit dep t2) ∧
    (∀ s : ℕ, depStart dep = some s → s + 86400 ≤ t1 → s + 86400 ≤ t2 →
      profitForDeposit dep t1 = profitForDeposit dep t2) := by
  refine ⟨profitForDeposit_nonneg dep t1 hamt hrate,
    fun h => profitForDeposit_mono dep hamt hrate h, ?_⟩
  intro s hS h1 h2
  rw [profitForDeposit_const_after_cap dep hS h1,
      profitForDeposit_const_after_cap dep hS h2]

/-- Witness for C8: a 100-unit deposit at 6 percent daily, compared at the cap
instant and 10 days beyond it. -/
theorem C8_accrual_shape_witness :
    0 ≤ profitForDeposit
      { amount := 100, ratePercent := some 6, days := 60, startDate := some 0,
        approvedAt := some 0, endDate := none, status := DepStatus.active } 86400 ∧
    (86400 ≤ 100800 →
      profitForDeposit
        { amount := 100, ratePercent := some 6, days := 60, startDate := some 0,
          approvedAt := some 0, endDate := none, status := DepStatus.active } 86400 ≤
      profitForDeposit
        { amount := 100, ratePercent := some 6, days := 60, startDate := some 0,
          approvedAt := some 0, endDate := none, status := DepStatus.active } 100800) ∧
    (∀ s : ℕ,
      depStart { amount := 100, ratePercent := some 6, days := 60, startDate := some 0,
                 approvedAt := some 0, endDate := none,
                 status := DepStatus.active } = some s →
      s + 86400 ≤ 86400 → s + 86400 ≤ 100800 →
      profitForDeposit
        { amount := 100, ratePercent := some 6, days := 60, startDate := some 0,
          approvedAt := some 0, endDate := none, status := DepStatus.active } 86400 =
      profitForDeposit
        { amount := 100, ratePercent := some 6, days := 60, startDate := some 0,
          approvedAt := some 0, endDate := none, status := DepStatus.active } 100800) :=
  C8_accrual_shape
    { amount := 100, ratePercent := some 6, days := 60, startDate := some 0,
      approvedAt := some 0, endDate := none, status := DepStatus.active }
    86400 100800 (by norm_num) (by norm_num [effectiveRate])

/-- C9: the rate resolver of the embedding agrees everywhere with the
spec-worded resolver (exact tier match first, otherwise the highest tier whose
threshold is at most the amount, lowest tier's rate below the lowest tier),
and resolves 100 to 6, 19 to 5 and 10000 to 8. -/
theorem C9_rate_resolver :
    (∀ a : ℚ, rateForAmount a = rateResolverSpec a) ∧
    rateForAmount 100 = 6 ∧ rateForAmount 19 = 5 ∧ rateForAmount 10000 = 8 :=
  ⟨fun a => by rw [rateForAmount_eq, rateResolverSpec_eq], by decide, by decide,
   by decide⟩

/-- C10: an approval without an explicit `approvedAmount` settles exactly the
transaction's originally requested amount: the whole settlement equals the one
with the requested amount passed explicitly, the recorded
`details.approvedAmount` is the requested amount, the withdrawal deduction is
applied to it, and the deposit credits it to capital. -/
theorem C10_default_approved_amount (now : ℕ) (tx : Txn) (u : User)
    (referrer : Option User) (rate : ℚ) :
    approveWithdraw none tx u = approveWithdraw (some tx.amount) tx u ∧
    approveDeposit none now tx u referrer rate =
      approveDeposit (some tx.amount) now tx u referrer rate ∧
    (∀ o, approveWithdraw none tx u = Except.ok o →
      o.tx.approvedAmount = some tx.amount ∧
      o.audit = deductFromUser u.netProfit u.referralEarnings tx.amount) ∧
    (∀ o, approveDeposit none now tx u referrer rate = Except.ok o →
      o.tx.approvedAmount = some tx.amount ∧
      o.user.capital = round2 (u.capital + tx.amount)) := by
  refine ⟨rfl, rfl, ?_, ?_⟩
  · intro o ho
    rcases approveWithdraw_spec none tx u with ⟨e, he⟩ | ⟨heq, _⟩
    · rw [he] at ho
      exact absurd ho (by simp)
    · rw [heq] at ho
      simp only [Except.ok.injEq] at ho
      subst ho
      exact ⟨rfl, rfl⟩
  · intro o ho
    rcases approveDeposit_spec none now tx u referrer rate with ⟨e, he⟩ | heq
    · rw [he] at ho
      exact absurd ho (by simp)
    · rw [heq] at ho
      simp only [Except.ok.injEq] at ho
      subst ho
      exact ⟨rfl, rfl⟩

/-- Witness for C10: a pending withdrawal of 40 against profit 30 and
commission 20 settles with no explicit approved amount. -/
theorem C10_default_approved_amount_witness :
    approveWithdraw none
      { type := TxType.withdraw, status := TxStatus.pending, amount := 40,
        snapshotNet := some 30, approvedAmount := none, breakdownFromNet := none,
        planRate := none, detailsRate := none, planDays := none, detailsDays := none }
      { id := 4, capital := 0, netProfit := 30, referralEarnings := 20,
        deposits := [], referrals := [] } =
    approveWithdraw (some 40)
      { type := TxType.withdraw, status := TxStatus.pending, amount := 40,
        snapshotNet := some 30, approvedAmount := none, breakdownFromNet := none,
        planRate := none, detailsRate := none, planDays := none, detailsDays := none }
      { id := 4, capital := 0, netProfit := 30, referralEarnings := 20,
        deposits := [], referrals := [] } ∧
    approveDeposit none 0
      { type := TxType.withdraw, status := TxStatus.pending, amount := 40,
        snapshotNet := some 30, approvedAmount := none, breakdownFromNet := none,
        planRate := none, detailsRate := none, planDays := none, detailsDays := none }
      { id := 4, capital := 0, netProfit := 30, referralEarnings := 20,
        deposits := [], referrals := [] } none (1 / 20) =
    approveDeposit (some 40) 0
      { type := TxType.withdraw, status := TxStatus.pending, amount := 40,
        snapshotNet := some 30, approvedAmount := none, breakdownFromNet := none,
        planRate := none, detailsRate := none, planDays := none, detailsDays := none }
      { id := 4, capital := 0, netProfit := 30, referralEarnings := 20,
        deposits := [], referrals := [] } none (1 / 20) ∧
    (∀ o, approveWithdraw none
      { type := TxType.withdraw, status := TxStatus.pending, amount := 40,
        snapshotNet := some 30, approvedAmount := none, breakdownFromNet := none,
        planRate := none, detailsRate := none, planDays := none, detailsDays := none }
      { id := 4, capital := 0, netProfit := 30, referralEarnings := 20,
        deposits := [], referrals := [] } = Except.ok o →
      o.tx.approvedAmount = some (40 : ℚ) ∧
      o.audit = deductFromUser 30 20 40) ∧
    (∀ o, approveDeposit none 0
      { type := TxType.withdraw, status := TxStatus.pending, amount := 40,
        snapshotNet := some 30, approvedAmount := none, breakdownFromNet := none,
        planRate := none, detailsRate := none, planDays := none, detailsDays := none }
      { id := 4, capital := 0, netProfit := 30, referralEarnings := 20,
        deposits := [], referrals := [] } none (1 / 20) = Except.ok o →
      o.tx.approvedAmount = some (40 : ℚ) ∧
      o.user.capital = round2 (0 + 40)) :=
  C10_default_approved_amount 0
    { type := TxType.withdraw, status := TxStatus.pending, amount := 40,
      snapshotNet := some 30, approvedAmount := none, breakdownFromNet := none,
      planRate := none, detailsRate := none, planDays := none, detailsDays := none }
    { id := 4, capital := 0, netProfit := 30, referralEarnings := 20,
      deposits := [], referrals := [] } none (1 / 20)
